import Mathlib

/-!
# Pandora `Track` (src/Objects/Track.cc)

A shallow embedding of the track entity: the C++ `float` arithmetic the constructor and the
truth-match query use, the track record, the constructor, the truth-weight query and the
mutators, followed by the properties proved about them.

Conventions.
* A pointer is its address, a natural number; the null pointer is address `0`.
* A `std::set<Track *>` is a finite set of addresses; `std::set::insert` reports whether the
  element was new.
* A `std::map<MCParticle *, float>` is the list of its entries in iteration order.
* A method that returns a `StatusCode` and may change the receiver is a function to
  `StatusCode × Track`; a method or constructor that throws a `StatusCodeException` is a
  function to `Except StatusCode _`.
-/

set_option autoImplicit false

namespace pandora

/-- Number of significand bits of the format (binary32: 24). -/
def F32.precision : Nat := 24

/-- Exponent of the least subnormal of the format (binary32: 2^(-149)). -/
def F32.emin : Int := -149

/-- Exponent of the overflow threshold of the format (binary32: 2^128). -/
def F32.emax : Int := 128

/-- C++ `float`: `fin neg m e` stands for `(-1)^neg * m * 2^e`. -/
inductive F32 where
  | nan : F32
  | inf (neg : Bool) : F32
  | fin (neg : Bool) (m : Nat) (e : Int) : F32
deriving DecidableEq, Repr

/-- Binary digits of `n`, counted with `fuel` halvings. -/
def bitLengthAux : Nat → Nat → Nat
  | 0, _ => 0
  | fuel + 1, n => if n = 0 then 0 else bitLengthAux fuel (n / 2) + 1

/-- Number of binary digits of `n` (0 for 0). -/
def bitLength (n : Nat) : Nat := bitLengthAux n n

/-- Digit-by-digit integer square root: tries bits `b-1, ..., 0` on top of `r`. -/
def isqrtAux : Nat → Nat → Nat → Nat
  | 0, _, r => r
  | b + 1, n, r => isqrtAux b n (if (r + 2 ^ b) * (r + 2 ^ b) ≤ n then r + 2 ^ b else r)

/-- Greatest `r` with `r * r ≤ n`. -/
def isqrt (n : Nat) : Nat := isqrtAux (bitLength n / 2 + 1) n 0

namespace F32

/-- The literal `0.f`. -/
def zero : F32 := fin false 0 0

/-- Signed integer `(-1)^neg * m * 2^(e - e0)`, for `e0 ≤ e`. -/
def scaled (neg : Bool) (m : Nat) (e e0 : Int) : Int :=
  if neg then -((m * 2 ^ (e - e0).toNat : Nat) : Int) else ((m * 2 ^ (e - e0).toNat : Nat) : Int)

/-- Overflow test and packing of a rounded significand: `m * 2^e` reaches `2^emax` exactly
when `m` has more than `emax - e` binary digits. -/
def pack (neg : Bool) (m : Nat) (e : Int) : F32 :=
  if emax < e + (bitLength m : Int) then inf neg else fin neg m e

/-- Round to nearest, ties to even, of the magnitude `m * 2^e` (plus a positive
remainder below one unit of `m` when `sticky`), with sign `neg`. -/
def round (neg : Bool) (m : Nat) (e : Int) (sticky : Bool) : F32 :=
  if m = 0 then fin neg 0 0
  else
    let e1 : Int := max (e + (bitLength m : Int) - (precision : Int)) emin
    if e1 ≤ e then pack neg (m * 2 ^ (e - e1).toNat) e1
    else
      let k : Nat := (e1 - e).toNat
      let q : Nat := m / 2 ^ k
      let r : Nat := m % 2 ^ k
      let half : Nat := 2 ^ (k - 1)
      if half < r ∨ (r = half ∧ (sticky = true ∨ q % 2 = 1)) then pack neg (q + 1) e1
      else pack neg q e1

/-- C++ `a > b` on floats. -/
def gt : F32 → F32 → Bool
  | nan, _ => false
  | _, nan => false
  | inf s, inf t => !s && t
  | inf s, fin _ _ _ => !s
  | fin _ _ _, inf t => t
  | fin s m e, fin t n f => decide (scaled t n f (min e f) < scaled s m e (min e f))

/-- C++ `a == b` on floats. -/
def eq : F32 → F32 → Bool
  | nan, _ => false
  | _, nan => false
  | inf s, inf t => s == t
  | inf _, fin _ _ _ => false
  | fin _ _ _, inf _ => false
  | fin s m e, fin t n f => decide (scaled s m e (min e f) = scaled t n f (min e f))

/-- C++ `a <= b` on floats. -/
def le (a b : F32) : Bool := gt b a || eq a b

/-- C++ `a * b` on floats. -/
def mul : F32 → F32 → F32
  | nan, _ => nan
  | _, nan => nan
  | inf s, inf t => inf (s != t)
  | inf s, fin t n _ => if n = 0 then nan else inf (s != t)
  | fin s m _, inf t => if m = 0 then nan else inf (s != t)
  | fin s m e, fin t n f => round (s != t) (m * n) (e + f) false

/-- C++ `a + b` on floats. -/
def add : F32 → F32 → F32
  | nan, _ => nan
  | _, nan => nan
  | inf s, inf t => if s = t then inf s else nan
  | inf s, fin _ _ _ => inf s
  | fin _ _ _, inf t => inf t
  | fin s m e, fin t n f =>
    let x : Int := scaled s m e (min e f) + scaled t n f (min e f)
    if x = 0 then fin (s && t) 0 0
    else round (decide (x < 0)) x.natAbs (min e f) false

/-- The `float` overload of `std::sqrt`. -/
def sqrt : F32 → F32
  | nan => nan
  | inf s => if s then nan else inf false
  | fin s m e =>
    if m = 0 then fin s 0 0
    else if s then nan
    else
      let sh : Nat := 64 + (e % 2).toNat
      let r : Nat := isqrt (m * 2 ^ sh)
      round false r ((e - (sh : Int)) / 2) (r * r != m * 2 ^ sh)

/-- Conversion `static_cast<float>(i)` of an `int`. -/
def ofInt (i : Int) : F32 := round (decide (i < 0)) i.natAbs 0 false

end F32

/-! ## Data model -/

/-- A pointer value: the address it holds. -/
abbrev Address := Nat

/-- The null pointer. -/
def NULL : Address := 0

/-- The status codes `Track.cc` returns or throws. -/
inductive StatusCode where
  | STATUS_CODE_SUCCESS
  | STATUS_CODE_NOT_FOUND
  | STATUS_CODE_NOT_INITIALIZED
  | STATUS_CODE_ALREADY_INITIALIZED
  | STATUS_CODE_INVALID_PARAMETER
  | STATUS_CODE_ALREADY_PRESENT
deriving DecidableEq, Repr

open StatusCode

deriving instance DecidableEq for Except

/-- Modelled from the spec: the class `CartesianVector` is declared outside `Track.cc`; a
"momentum vector" or position is recorded as its three `float` coordinates. -/
structure CartesianVector where
  m_x : F32
  m_y : F32
  m_z : F32
deriving DecidableEq, Repr

/-- Modelled from the spec: the class `TrackState` is declared outside `Track.cc`; a
track-state snapshot is "position+momentum", read by `GetPosition` and `GetMomentum`. -/
structure TrackState where
  m_position : CartesianVector
  m_momentum : CartesianVector
deriving DecidableEq, Repr

/-- Modelled from the spec: the `Helix` class is an external collaborator that is not part of
`Track.cc`; a helix is "constructed from (position, momentum, charge, field)" and is recorded
here as exactly these four constructor arguments. -/
structure Helix where
  position : CartesianVector
  momentum : CartesianVector
  charge : F32
  bField : F32
deriving DecidableEq, Repr

/-- Entries of a `std::map<const MCParticle *, float>`, in iteration order. -/
abbrev MCParticleWeightMap := List (Address × F32)

/-- A `std::set<Track *>`. -/
abbrev TrackList := Finset Address

/-- The library call `std::set::insert`: it adds the element unless it is a member already
and reports whether it was added. -/
def stdSetInsert (s : TrackList) (p : Address) : TrackList × Bool :=
  (insert p s, decide (p ∉ s))

/-- Modelled from the spec: `PandoraApi::Track::Parameters` is declared outside `Track.cc`; it
is "a fully-populated, pre-validated parameter bundle", so each `Get()` of the constructor
reads a value that is present. -/
structure Parameters where
  m_d0 : F32
  m_z0 : F32
  m_particleId : Int
  m_charge : Int
  m_mass : F32
  m_momentumAtDca : CartesianVector
  m_trackStateAtStart : TrackState
  m_trackStateAtEnd : TrackState
  m_trackStateAtCalorimeter : TrackState
  m_timeAtCalorimeter : F32
  m_reachesCalorimeter : Bool
  m_isProjectedToEndCap : Bool
  m_canFormPfo : Bool
  m_canFormClusterlessPfo : Bool
  m_pParentAddress : Address
deriving DecidableEq, Repr

/-- What a call of the constructor finds outside its parameter bundle. The two functions of
other classes it calls, `CartesianVector::GetMagnitude` and `GeometryHelper::GetBField`, as
they answer at the time of the call: their code is not part of `Track.cc`, so they are
parameters. And the state of the function-local `static const float bField` of the
constructor when the call starts: `none` while no construction of the process has reached
its declaration, afterwards the value it was initialised with. -/
structure Collaborators where
  GetMagnitude : CartesianVector → F32
  GetBField : CartesianVector → F32
  bFieldStatic : Option F32

/-- The value of `static const float bField` when a construction has passed its declaration:
the value it holds already, or else, on the first pass, the field looked up at (0, 0, 0). -/
def Collaborators.bField (env : Collaborators) : F32 :=
  match env.bFieldStatic with
  | some value => value
  | none => env.GetBField ⟨F32.zero, F32.zero, F32.zero⟩

/-- The data members of a `Track`. -/
structure Track where
  m_d0 : F32
  m_z0 : F32
  m_particleId : Int
  m_charge : Int
  m_mass : F32
  m_momentumAtDca : CartesianVector
  m_momentumMagnitudeAtDca : F32
  m_energyAtDca : F32
  m_trackStateAtStart : TrackState
  m_trackStateAtEnd : TrackState
  m_trackStateAtCalorimeter : TrackState
  m_timeAtCalorimeter : F32
  m_reachesCalorimeter : Bool
  m_isProjectedToEndCap : Bool
  m_canFormPfo : Bool
  m_canFormClusterlessPfo : Bool
  m_pHelixFitAtCalorimeter : Helix
  m_mcParticleWeightMap : MCParticleWeightMap
  m_pAssociatedCluster : Address
  m_parentTrackList : TrackList
  m_siblingTrackList : TrackList
  m_daughterTrackList : TrackList
  m_pParentAddress : Address
  m_isAvailable : Bool
deriving DecidableEq

/-- What a call of the constructor leaves behind: the state of `static const float bField`,
the helices created by `new Helix`, and the track or the thrown status code. -/
structure Construction where
  bFieldStatic : Option F32
  allocated : List Helix
  outcome : Except StatusCode Track

/-! ## Operations -/

/-- The loop of `GetMainMCParticle`: `bestWeight` and `pBestMCParticle` after the entries. -/
def GetMainMCParticle.loop : MCParticleWeightMap → F32 → Address → F32 × Address
  | [], bestWeight, pBestMCParticle => (bestWeight, pBestMCParticle)
  | (first, second) :: rest, bestWeight, pBestMCParticle =>
    if F32.gt second bestWeight then GetMainMCParticle.loop rest second first
    else GetMainMCParticle.loop rest bestWeight pBestMCParticle

/-- The method `Track::GetMainMCParticle`. -/
def Track.GetMainMCParticle (t : Track) : Except StatusCode Address :=
  let pBestMCParticle := (GetMainMCParticle.loop t.m_mcParticleWeightMap F32.zero NULL).2
  if NULL = pBestMCParticle then Except.error STATUS_CODE_NOT_INITIALIZED
  else Except.ok pBestMCParticle

/-- The energy the constructor derives: `std::sqrt(m_mass * m_mass + p * p)`. -/
def energyAtDca (mass momentumMagnitude : F32) : F32 :=
  F32.sqrt (F32.add (F32.mul mass mass) (F32.mul momentumMagnitude momentumMagnitude))

/-- The constructor `Track::Track(const PandoraApi::Track::Parameters &)`. -/
def Track.construct (env : Collaborators) (parameters : Parameters) : Except StatusCode Track :=
  let m_momentumMagnitudeAtDca := env.GetMagnitude parameters.m_momentumAtDca
  let m_energyAtDca := energyAtDca parameters.m_mass m_momentumMagnitudeAtDca
  if F32.eq F32.zero m_energyAtDca then Except.error STATUS_CODE_INVALID_PARAMETER
  else if 0 = parameters.m_charge then Except.error STATUS_CODE_INVALID_PARAMETER
  else
    let bField := env.bField
    Except.ok {
      m_d0 := parameters.m_d0
      m_z0 := parameters.m_z0
      m_particleId := parameters.m_particleId
      m_charge := parameters.m_charge
      m_mass := parameters.m_mass
      m_momentumAtDca := parameters.m_momentumAtDca
      m_momentumMagnitudeAtDca := m_momentumMagnitudeAtDca
      m_energyAtDca := m_energyAtDca
      m_trackStateAtStart := parameters.m_trackStateAtStart
      m_trackStateAtEnd := parameters.m_trackStateAtEnd
      m_trackStateAtCalorimeter := parameters.m_trackStateAtCalorimeter
      m_timeAtCalorimeter := parameters.m_timeAtCalorimeter
      m_reachesCalorimeter := parameters.m_reachesCalorimeter
      m_isProjectedToEndCap := parameters.m_isProjectedToEndCap
      m_canFormPfo := parameters.m_canFormPfo
      m_canFormClusterlessPfo := parameters.m_canFormClusterlessPfo
      m_pHelixFitAtCalorimeter :=
        ⟨parameters.m_trackStateAtCalorimeter.m_position,
          parameters.m_trackStateAtCalorimeter.m_momentum,
          F32.ofInt parameters.m_charge, bField⟩
      m_mcParticleWeightMap := []
      m_pAssociatedCluster := NULL
      m_parentTrackList := ∅
      m_siblingTrackList := ∅
      m_daughterTrackList := ∅
      m_pParentAddress := parameters.m_pParentAddress
      m_isAvailable := true }

/-- The method `Track::SetMCParticleWeightMap`. -/
def Track.SetMCParticleWeightMap (mcParticleWeightMap : MCParticleWeightMap) (t : Track) : Track :=
  { t with m_mcParticleWeightMap := mcParticleWeightMap }

/-- The method `Track::RemoveMCParticles`. -/
def Track.RemoveMCParticles (t : Track) : Track :=
  { t with m_mcParticleWeightMap := [] }

/-- The method `Track::SetAssociatedCluster`. -/
def Track.SetAssociatedCluster (pCluster : Address) (t : Track) : StatusCode × Track :=
  if NULL = pCluster then (STATUS_CODE_INVALID_PARAMETER, t)
  else if NULL ≠ t.m_pAssociatedCluster then (STATUS_CODE_ALREADY_INITIALIZED, t)
  else (STATUS_CODE_SUCCESS, { t with m_pAssociatedCluster := pCluster })

/-- The method `Track::RemoveAssociatedCluster`. -/
def Track.RemoveAssociatedCluster (pCluster : Address) (t : Track) : StatusCode × Track :=
  if pCluster ≠ t.m_pAssociatedCluster then (STATUS_CODE_NOT_FOUND, t)
  else (STATUS_CODE_SUCCESS, { t with m_pAssociatedCluster := NULL })

/-- The method `Track::AddParent`. -/
def Track.AddParent (pTrack : Address) (t : Track) : StatusCode × Track :=
  if NULL = pTrack then (STATUS_CODE_INVALID_PARAMETER, t)
  else if !(stdSetInsert t.m_parentTrackList pTrack).2 then
    (STATUS_CODE_ALREADY_PRESENT, { t with m_parentTrackList := (stdSetInsert t.m_parentTrackList pTrack).1 })
  else (STATUS_CODE_SUCCESS, { t with m_parentTrackList := (stdSetInsert t.m_parentTrackList pTrack).1 })

/-- The method `Track::AddDaughter`. -/
def Track.AddDaughter (pTrack : Address) (t : Track) : StatusCode × Track :=
  if NULL = pTrack then (STATUS_CODE_INVALID_PARAMETER, t)
  else if !(stdSetInsert t.m_daughterTrackList pTrack).2 then
    (STATUS_CODE_ALREADY_PRESENT, { t with m_daughterTrackList := (stdSetInsert t.m_daughterTrackList pTrack).1 })
  else (STATUS_CODE_SUCCESS, { t with m_daughterTrackList := (stdSetInsert t.m_daughterTrackList pTrack).1 })

/-- The method `Track::AddSibling`. -/
def Track.AddSibling (pTrack : Address) (t : Track) : StatusCode × Track :=
  if NULL = pTrack then (STATUS_CODE_INVALID_PARAMETER, t)
  else if !(stdSetInsert t.m_siblingTrackList pTrack).2 then
    (STATUS_CODE_ALREADY_PRESENT, { t with m_siblingTrackList := (stdSetInsert t.m_siblingTrackList pTrack).1 })
  else (STATUS_CODE_SUCCESS, { t with m_siblingTrackList := (stdSetInsert t.m_siblingTrackList pTrack).1 })

/-- A call of one of the methods of `Track` that report a failure. -/
inductive Call where
  | SetAssociatedCluster (pCluster : Address)
  | RemoveAssociatedCluster (pCluster : Address)
  | AddParent (pTrack : Address)
  | AddDaughter (pTrack : Address)
  | AddSibling (pTrack : Address)
  | GetMainMCParticle
deriving DecidableEq, Repr

/-- Status and track after a call; `GetMainMCParticle` is a `const` method, its status is
the thrown code or success. -/
def Call.run : Call → Track → StatusCode × Track
  | Call.SetAssociatedCluster p, t => t.SetAssociatedCluster p
  | Call.RemoveAssociatedCluster p, t => t.RemoveAssociatedCluster p
  | Call.AddParent p, t => t.AddParent p
  | Call.AddDaughter p, t => t.AddDaughter p
  | Call.AddSibling p, t => t.AddSibling p
  | Call.GetMainMCParticle, t =>
    match t.GetMainMCParticle with
    | Except.ok _ => (STATUS_CODE_SUCCESS, t)
    | Except.error code => (code, t)

/-- A call of one of the seven methods of `Track.cc` that change a track. -/
inductive Mutator where
  | SetMCParticleWeightMap (mcParticleWeightMap : MCParticleWeightMap)
  | RemoveMCParticles
  | SetAssociatedCluster (pCluster : Address)
  | RemoveAssociatedCluster (pCluster : Address)
  | AddParent (pTrack : Address)
  | AddDaughter (pTrack : Address)
  | AddSibling (pTrack : Address)
deriving DecidableEq

/-- The track after a mutator call, whether the call succeeded or failed. -/
def Mutator.run : Mutator → Track → Track
  | Mutator.SetMCParticleWeightMap m, t => t.SetMCParticleWeightMap m
  | Mutator.RemoveMCParticles, t => t.RemoveMCParticles
  | Mutator.SetAssociatedCluster p, t => (t.SetAssociatedCluster p).2
  | Mutator.RemoveAssociatedCluster p, t => (t.RemoveAssociatedCluster p).2
  | Mutator.AddParent p, t => (t.AddParent p).2
  | Mutator.AddDaughter p, t => (t.AddDaughter p).2
  | Mutator.AddSibling p, t => (t.AddSibling p).2

/-- The track after a finite sequence of mutator calls, first call first. -/
def Track.after : List Mutator → Track → Track
  | [], t => t
  | call :: calls, t => Track.after calls (call.run t)

/-- The tracks of an event by address; `none` where no track lives. -/
abbrev TrackPool := Address → Option Track

/-- A method call `pSelf->method(...)` in a pool of tracks: the method runs on the members
of the receiver, which are written back; the status is returned. No other object is
written, the methods of `Track.cc` dereference no pointer but `this`. -/
def TrackPool.call (pool : TrackPool) (pSelf : Address) (method : Track → StatusCode × Track) :
    Option (StatusCode × TrackPool) :=
  match pool pSelf with
  | none => none
  | some t => some ((method t).1, Function.update pool pSelf (some (method t).2))

/-- The constructor with its effects on the process made explicit: the state of
`static const float bField` after the call, the helices created by `new Helix` during the
call, and the outcome of the call. A `throw` leaves the constructor before the static is
initialised and before the `new` is reached. -/
def Track.constructAllocating (env : Collaborators) (parameters : Parameters) : Construction :=
  let m_momentumMagnitudeAtDca := env.GetMagnitude parameters.m_momentumAtDca
  let m_energyAtDca := energyAtDca parameters.m_mass m_momentumMagnitudeAtDca
  if F32.eq F32.zero m_energyAtDca then
    ⟨env.bFieldStatic, [], Except.error STATUS_CODE_INVALID_PARAMETER⟩
  else if 0 = parameters.m_charge then
    ⟨env.bFieldStatic, [], Except.error STATUS_CODE_INVALID_PARAMETER⟩
  else
    let bField := env.bField
    let helix : Helix :=
      ⟨parameters.m_trackStateAtCalorimeter.m_position,
        parameters.m_trackStateAtCalorimeter.m_momentum,
        F32.ofInt parameters.m_charge, bField⟩
    ⟨some bField, [helix], Except.ok {
      m_d0 := parameters.m_d0
      m_z0 := parameters.m_z0
      m_particleId := parameters.m_particleId
      m_charge := parameters.m_charge
      m_mass := parameters.m_mass
      m_momentumAtDca := parameters.m_momentumAtDca
      m_momentumMagnitudeAtDca := m_momentumMagnitudeAtDca
      m_energyAtDca := m_energyAtDca
      m_trackStateAtStart := parameters.m_trackStateAtStart
      m_trackStateAtEnd := parameters.m_trackStateAtEnd
      m_trackStateAtCalorimeter := parameters.m_trackStateAtCalorimeter
      m_timeAtCalorimeter := parameters.m_timeAtCalorimeter
      m_reachesCalorimeter := parameters.m_reachesCalorimeter
      m_isProjectedToEndCap := parameters.m_isProjectedToEndCap
      m_canFormPfo := parameters.m_canFormPfo
      m_canFormClusterlessPfo := parameters.m_canFormClusterlessPfo
      m_pHelixFitAtCalorimeter := helix
      m_mcParticleWeightMap := []
      m_pAssociatedCluster := NULL
      m_parentTrackList := ∅
      m_siblingTrackList := ∅
      m_daughterTrackList := ∅
      m_pParentAddress := parameters.m_pParentAddress
      m_isAvailable := true }⟩

/-! ## Sample data -/

/-- The `float` nearest to 0.3: `0x3E99999A`. -/
def F32.f0_3 : F32 := F32.fin false 10066330 (-25)

/-- The `float` nearest to 0.7: `0x3F333333`. -/
def F32.f0_7 : F32 := F32.fin false 11744051 (-24)

/-- The `float` 1. -/
def F32.one : F32 := F32.fin false 8388608 (-23)

/-- Sample collaborators: the Euclidean norm in `float` arithmetic and a uniform field of
strength 4, in a process that has constructed no track yet. -/
def sampleCollaborators : Collaborators where
  GetMagnitude v :=
    F32.sqrt (F32.add (F32.add (F32.mul v.m_x v.m_x) (F32.mul v.m_y v.m_y)) (F32.mul v.m_z v.m_z))
  GetBField _ := F32.fin false 8388608 (-21)
  bFieldStatic := none

/-- Sample collaborators later in the same process: the sample track has been constructed,
so the static holds the field 4 looked up then, and the field now looked up is 2. -/
def sampleCollaboratorsLater : Collaborators where
  GetMagnitude := sampleCollaborators.GetMagnitude
  GetBField _ := F32.fin false 8388608 (-22)
  bFieldStatic := some (F32.fin false 8388608 (-21))

/-- Sample parameter bundle: charge `q`, mass `mass`, momentum `(0, 0, pz)`. -/
def sampleParameters (q : Int) (mass pz : F32) : Parameters where
  m_d0 := F32.f0_3
  m_z0 := F32.f0_7
  m_particleId := 211
  m_charge := q
  m_mass := mass
  m_momentumAtDca := ⟨F32.zero, F32.zero, pz⟩
  m_trackStateAtStart := ⟨⟨F32.zero, F32.zero, F32.zero⟩, ⟨F32.zero, F32.zero, pz⟩⟩
  m_trackStateAtEnd := ⟨⟨F32.one, F32.zero, F32.one⟩, ⟨F32.zero, F32.zero, pz⟩⟩
  m_trackStateAtCalorimeter := ⟨⟨F32.one, F32.one, F32.one⟩, ⟨F32.zero, F32.f0_3, pz⟩⟩
  m_timeAtCalorimeter := F32.f0_7
  m_reachesCalorimeter := true
  m_isProjectedToEndCap := false
  m_canFormPfo := true
  m_canFormClusterlessPfo := false
  m_pParentAddress := 4096

/-- The track built from the sample bundle with charge 1, mass 1 and momentum (0, 0, 1),
written out field by field. -/
def sampleTrack : Track where
  m_d0 := F32.f0_3
  m_z0 := F32.f0_7
  m_particleId := 211
  m_charge := 1
  m_mass := F32.one
  m_momentumAtDca := ⟨F32.zero, F32.zero, F32.one⟩
  m_momentumMagnitudeAtDca := F32.one
  m_energyAtDca := F32.fin false 11863283 (-23)
  m_trackStateAtStart := ⟨⟨F32.zero, F32.zero, F32.zero⟩, ⟨F32.zero, F32.zero, F32.one⟩⟩
  m_trackStateAtEnd := ⟨⟨F32.one, F32.zero, F32.one⟩, ⟨F32.zero, F32.zero, F32.one⟩⟩
  m_trackStateAtCalorimeter := ⟨⟨F32.one, F32.one, F32.one⟩, ⟨F32.zero, F32.f0_3, F32.one⟩⟩
  m_timeAtCalorimeter := F32.f0_7
  m_reachesCalorimeter := true
  m_isProjectedToEndCap := false
  m_canFormPfo := true
  m_canFormClusterlessPfo := false
  m_pHelixFitAtCalorimeter :=
    ⟨⟨F32.one, F32.one, F32.one⟩, ⟨F32.zero, F32.f0_3, F32.one⟩, F32.one, F32.fin false 8388608 (-21)⟩
  m_mcParticleWeightMap := []
  m_pAssociatedCluster := NULL
  m_parentTrackList := ∅
  m_siblingTrackList := ∅
  m_daughterTrackList := ∅
  m_pParentAddress := 4096
  m_isAvailable := true


/-- Sample pool: the sample track lives at the addresses 1 and 2. -/
def samplePool : TrackPool := fun a => if a = 1 ∨ a = 2 then some sampleTrack else none

/-! ## The order of `float` comparisons -/

namespace F32

theorem scaled_shift (s : Bool) (m : Nat) (e e0 e1 : Int) (h1 : e1 ≤ e0) (h0 : e0 ≤ e) :
    scaled s m e e1 = scaled s m e e0 * 2 ^ (e0 - e1).toNat := by
  have hsplit : (e - e1).toNat = (e - e0).toNat + (e0 - e1).toNat := by omega
  unfold scaled
  rw [hsplit, pow_add]
  split <;> push_cast <;> ring

theorem scaled_lt_shift (s t : Bool) (m n : Nat) (e f e0 e1 : Int) (h1 : e1 ≤ e0)
    (he : e0 ≤ e) (hf : e0 ≤ f) :
    scaled t n f e1 < scaled s m e e1 ↔ scaled t n f e0 < scaled s m e e0 := by
  rw [scaled_shift s m e e0 e1 h1 he, scaled_shift t n f e0 e1 h1 hf]
  have hpos : (0 : Int) < 2 ^ (e0 - e1).toNat := by positivity
  exact mul_lt_mul_right hpos

theorem gt_irrefl (a : F32) : gt a a = false := by
  cases a <;> simp [gt]

theorem gt_trans {a b c : F32} (hab : gt a b = true) (hbc : gt b c = true) : gt a c = true := by
  cases a <;> cases b <;> cases c <;> simp_all [gt]
  rename_i s m e t n f u k g
  have h1 := (scaled_lt_shift s t m n e f (min e f) (min e (min f g)) (by simp) (by simp) (by simp)).2 hab
  have h2 := (scaled_lt_shift t u n k f g (min f g) (min e (min f g)) (by simp) (by simp) (by simp)).2 hbc
  exact (scaled_lt_shift s u m k e g (min e g) (min e (min f g)) (by simp) (by simp) (by simp)).1
    (lt_trans h2 h1)

theorem gt_asymm {a b : F32} (hab : gt a b = true) : gt b a = false := by
  by_contra h
  have h2 : gt b a = true := by simpa using h
  have := gt_trans hab h2
  rw [gt_irrefl] at this
  exact Bool.noConfusion this

theorem ne_nan_of_gt {a b : F32} (hab : gt a b = true) : a ≠ nan ∧ b ≠ nan := by
  cases a <;> cases b <;> simp_all [gt]

theorem le_of_not_gt {a b : F32} (ha : a ≠ nan) (hb : b ≠ nan) (h : gt a b = false) :
    le a b = true := by
  cases a <;> cases b <;> simp_all [gt, le, eq]
  · rename_i s t
    cases s <;> cases t <;> simp_all
  · rename_i s m e t n f
    rw [min_comm f e]
    omega

theorem eq_zero_iff (a : F32) : eq zero a = true ↔ ∃ s e, a = fin s 0 e := by
  cases a <;> simp [eq, zero, scaled]
  rename_i s m e
  constructor
  · intro h
    split at h <;> simp_all
  · intro h
    simp [h]

end F32


/-! ## The scan of the truth-weight map -/

/-- After the loop either nothing was selected and no weight exceeds the starting
`bestWeight`, or the selected entry is in the map, beats the starting `bestWeight`, and no
weight exceeds it. -/
theorem GetMainMCParticle.loop_spec (m : MCParticleWeightMap) :
    ∀ (bw : F32) (pb : Address),
      (GetMainMCParticle.loop m bw pb = (bw, pb) ∧ ∀ x ∈ m, F32.gt x.2 bw = false) ∨
      (((GetMainMCParticle.loop m bw pb).2, (GetMainMCParticle.loop m bw pb).1) ∈ m ∧
        F32.gt (GetMainMCParticle.loop m bw pb).1 bw = true ∧
        ∀ x ∈ m, F32.gt x.2 (GetMainMCParticle.loop m bw pb).1 = false) := by
  induction m with
  | nil => intro bw pb; left; simp [GetMainMCParticle.loop]
  | cons hd rest ih =>
    intro bw pb
    obtain ⟨k, w⟩ := hd
    by_cases hgt : F32.gt w bw = true
    · have hstep : GetMainMCParticle.loop ((k, w) :: rest) bw pb = GetMainMCParticle.loop rest w k := by
        simp [GetMainMCParticle.loop, hgt]
      rw [hstep]
      right
      rcases ih w k with ⟨heq, hall⟩ | ⟨hmem, hbeat, hall⟩
      · rw [heq]
        refine ⟨by simp, hgt, ?_⟩
        intro x hx
        rcases List.mem_cons.1 hx with rfl | hx
        · exact F32.gt_irrefl _
        · exact hall x hx
      · refine ⟨List.mem_cons_of_mem _ hmem, F32.gt_trans hbeat hgt, ?_⟩
        intro x hx
        rcases List.mem_cons.1 hx with rfl | hx
        · exact F32.gt_asymm hbeat
        · exact hall x hx
    · have hgt2 : F32.gt w bw = false := by simpa using hgt
      have hstep : GetMainMCParticle.loop ((k, w) :: rest) bw pb = GetMainMCParticle.loop rest bw pb := by
        simp [GetMainMCParticle.loop, hgt2]
      rw [hstep]
      rcases ih bw pb with ⟨heq, hall⟩ | ⟨hmem, hbeat, hall⟩
      · left
        refine ⟨heq, ?_⟩
        intro x hx
        rcases List.mem_cons.1 hx with rfl | hx
        · exact hgt2
        · exact hall x hx
      · right
        refine ⟨List.mem_cons_of_mem _ hmem, hbeat, ?_⟩
        intro x hx
        rcases List.mem_cons.1 hx with rfl | hx
        · by_contra hc
          have hc2 : F32.gt w (GetMainMCParticle.loop rest bw pb).1 = true := by simpa using hc
          exact hgt (F32.gt_trans hc2 hbeat)
        · exact hall x hx

/-- The loop over a concatenation continues from the state reached on the first part. -/
theorem GetMainMCParticle.loop_append (pre post : MCParticleWeightMap) :
    ∀ (bw : F32) (pb : Address),
      GetMainMCParticle.loop (pre ++ post) bw pb =
        GetMainMCParticle.loop post (GetMainMCParticle.loop pre bw pb).1
          (GetMainMCParticle.loop pre bw pb).2 := by
  induction pre with
  | nil => intro bw pb; simp [GetMainMCParticle.loop]
  | cons hd rest ih =>
    intro bw pb
    obtain ⟨k, w⟩ := hd
    by_cases hgt : F32.gt w bw = true
    · simp [GetMainMCParticle.loop, hgt, ih]
    · simp [GetMainMCParticle.loop, hgt, ih]

/-- With `0.f` equal to the mass and to the momentum magnitude the derived energy is `+0`. -/
theorem energyAtDca_zero {mass p : F32} (hm : F32.eq F32.zero mass = true)
    (hp : F32.eq F32.zero p = true) : energyAtDca mass p = F32.fin false 0 0 := by
  obtain ⟨s, e, rfl⟩ := (F32.eq_zero_iff mass).1 hm
  obtain ⟨t, f, rfl⟩ := (F32.eq_zero_iff p).1 hp
  simp [energyAtDca, F32.mul, F32.round, F32.add, F32.scaled, F32.sqrt]


/-! ## Mutators, case by case -/

theorem Track.AddParent_null (t : Track) :
    t.AddParent NULL = (STATUS_CODE_INVALID_PARAMETER, t) := by
  simp [Track.AddParent]

theorem Track.AddParent_mem (t : Track) (T : Address) (hT : T ≠ NULL)
    (hmem : T ∈ t.m_parentTrackList) : t.AddParent T = (STATUS_CODE_ALREADY_PRESENT, t) := by
  have hT2 : ¬ NULL = T := fun h => hT h.symm
  cases t
  simp_all [Track.AddParent, stdSetInsert]

theorem Track.AddParent_not_mem (t : Track) (T : Address) (hT : T ≠ NULL)
    (hmem : T ∉ t.m_parentTrackList) :
    t.AddParent T =
      (STATUS_CODE_SUCCESS, { t with m_parentTrackList := insert T t.m_parentTrackList }) := by
  have hT2 : ¬ NULL = T := fun h => hT h.symm
  simp [Track.AddParent, stdSetInsert, hT2, hmem]

theorem Track.AddDaughter_null (t : Track) :
    t.AddDaughter NULL = (STATUS_CODE_INVALID_PARAMETER, t) := by
  simp [Track.AddDaughter]

theorem Track.AddDaughter_mem (t : Track) (T : Address) (hT : T ≠ NULL)
    (hmem : T ∈ t.m_daughterTrackList) : t.AddDaughter T = (STATUS_CODE_ALREADY_PRESENT, t) := by
  have hT2 : ¬ NULL = T := fun h => hT h.symm
  cases t
  simp_all [Track.AddDaughter, stdSetInsert]

theorem Track.AddDaughter_not_mem (t : Track) (T : Address) (hT : T ≠ NULL)
    (hmem : T ∉ t.m_daughterTrackList) :
    t.AddDaughter T =
      (STATUS_CODE_SUCCESS, { t with m_daughterTrackList := insert T t.m_daughterTrackList }) := by
  have hT2 : ¬ NULL = T := fun h => hT h.symm
  simp [Track.AddDaughter, stdSetInsert, hT2, hmem]

theorem Track.AddSibling_null (t : Track) :
    t.AddSibling NULL = (STATUS_CODE_INVALID_PARAMETER, t) := by
  simp [Track.AddSibling]

theorem Track.AddSibling_mem (t : Track) (T : Address) (hT : T ≠ NULL)
    (hmem : T ∈ t.m_siblingTrackList) : t.AddSibling T = (STATUS_CODE_ALREADY_PRESENT, t) := by
  have hT2 : ¬ NULL = T := fun h => hT h.symm
  cases t
  simp_all [Track.AddSibling, stdSetInsert]

theorem Track.AddSibling_not_mem (t : Track) (T : Address) (hT : T ≠ NULL)
    (hmem : T ∉ t.m_siblingTrackList) :
    t.AddSibling T =
      (STATUS_CODE_SUCCESS, { t with m_siblingTrackList := insert T t.m_siblingTrackList }) := by
  have hT2 : ¬ NULL = T := fun h => hT h.symm
  simp [Track.AddSibling, stdSetInsert, hT2, hmem]


/-! ## Truth-match query -/

/-- C1, as the code has it: when some weight of the truth-weight map is greater than zero and
no key of the map is null, `GetMainMCParticle` succeeds and returns the key of an entry of the
map whose weight is greater than zero, is exceeded by no weight of the map, and is greater
than or equal to every weight of the map that is a number. -/
theorem GetMainMCParticle_returns_greatest (t : Track)
    (hpos : ∃ x ∈ t.m_mcParticleWeightMap, F32.gt x.2 F32.zero = true)
    (hkeys : ∀ x ∈ t.m_mcParticleWeightMap, x.1 ≠ NULL) :
    ∃ k w, t.GetMainMCParticle = Except.ok k ∧ (k, w) ∈ t.m_mcParticleWeightMap ∧
      F32.gt w F32.zero = true ∧
      ∀ x ∈ t.m_mcParticleWeightMap,
        F32.gt x.2 w = false ∧ (x.2 ≠ F32.nan → F32.le x.2 w = true) := by
  obtain ⟨x0, hx0, hx0pos⟩ := hpos
  rcases GetMainMCParticle.loop_spec t.m_mcParticleWeightMap F32.zero NULL with
    ⟨_, hall⟩ | ⟨hmem, hbeat, hall⟩
  · rw [hall x0 hx0] at hx0pos
    exact Bool.noConfusion hx0pos
  · refine ⟨_, _, ?_, hmem, hbeat, ?_⟩
    · have hne := hkeys _ hmem
      simp only [Track.GetMainMCParticle]
      rw [if_neg (fun h => hne h.symm)]
    · intro x hx
      exact ⟨hall x hx, fun hnan => F32.le_of_not_gt hnan (F32.ne_nan_of_gt hbeat).1 (hall x hx)⟩

/-- C1 fails as stated: a map whose only weight is zero is not empty, yet the query throws;
a positive weight under the null key is not returned either; and next to a NaN weight the
returned weight is not greater than or equal to every weight. -/
theorem GetMainMCParticle_nonempty_counterexample :
    ((sampleTrack.SetMCParticleWeightMap [(1, F32.zero)]).m_mcParticleWeightMap ≠ [] ∧
      (sampleTrack.SetMCParticleWeightMap [(1, F32.zero)]).GetMainMCParticle =
        Except.error STATUS_CODE_NOT_INITIALIZED) ∧
    (sampleTrack.SetMCParticleWeightMap [(NULL, F32.f0_7)]).GetMainMCParticle =
      Except.error STATUS_CODE_NOT_INITIALIZED ∧
    ((sampleTrack.SetMCParticleWeightMap [(1, F32.f0_7), (2, F32.nan)]).GetMainMCParticle =
        Except.ok 1 ∧ F32.le F32.nan F32.f0_7 = false) := by
  decide

/-- Witness of C1 on the map 1: 0.3, 2: 0.7, 3: 0.7. -/
theorem GetMainMCParticle_returns_greatest_witness :
    (∃ x ∈ (sampleTrack.SetMCParticleWeightMap
        [(1, F32.f0_3), (2, F32.f0_7), (3, F32.f0_7)]).m_mcParticleWeightMap,
      F32.gt x.2 F32.zero = true) ∧
    ∃ k w, (sampleTrack.SetMCParticleWeightMap
        [(1, F32.f0_3), (2, F32.f0_7), (3, F32.f0_7)]).GetMainMCParticle = Except.ok k ∧
      (k, w) ∈ (sampleTrack.SetMCParticleWeightMap
        [(1, F32.f0_3), (2, F32.f0_7), (3, F32.f0_7)]).m_mcParticleWeightMap ∧
      F32.gt w F32.zero = true ∧
      ∀ x ∈ (sampleTrack.SetMCParticleWeightMap
          [(1, F32.f0_3), (2, F32.f0_7), (3, F32.f0_7)]).m_mcParticleWeightMap,
        F32.gt x.2 w = false ∧ (x.2 ≠ F32.nan → F32.le x.2 w = true) :=
  ⟨by decide,
    GetMainMCParticle_returns_greatest
      (sampleTrack.SetMCParticleWeightMap [(1, F32.f0_3), (2, F32.f0_7), (3, F32.f0_7)])
      (by decide) (by decide)⟩

/-- C2, as the code has it: if the map is `pre`, then the entry `(k, w)`, then `post`, where
`k` is not null, `w` is greater than zero, no weight of `pre` exceeds or equals `w` and no
weight of `post` exceeds `w`, then `GetMainMCParticle` returns `k`, the first entry of greatest
weight; in particular on A: 0.3, B: 0.7, C: 0.7 in this order, B not null, it returns B. -/
theorem GetMainMCParticle_first_of_ties :
    (∀ (t : Track) (pre post : MCParticleWeightMap) (k : Address) (w : F32),
      t.m_mcParticleWeightMap = pre ++ (k, w) :: post → k ≠ NULL → F32.gt w F32.zero = true →
      (∀ x ∈ pre, F32.gt x.2 w = false ∧ F32.eq x.2 w = false) →
      (∀ x ∈ post, F32.gt x.2 w = false) →
      t.GetMainMCParticle = Except.ok k) ∧
    (∀ (t : Track) (A B C : Address), B ≠ NULL →
      t.m_mcParticleWeightMap = [(A, F32.f0_3), (B, F32.f0_7), (C, F32.f0_7)] →
      t.GetMainMCParticle = Except.ok B) := by
  have general : ∀ (t : Track) (pre post : MCParticleWeightMap) (k : Address) (w : F32),
      t.m_mcParticleWeightMap = pre ++ (k, w) :: post → k ≠ NULL → F32.gt w F32.zero = true →
      (∀ x ∈ pre, F32.gt x.2 w = false ∧ F32.eq x.2 w = false) →
      (∀ x ∈ post, F32.gt x.2 w = false) →
      t.GetMainMCParticle = Except.ok k := by
    intro t pre post k w hmap hk hw hpre hpost
    have hbefore : F32.gt w (GetMainMCParticle.loop pre F32.zero NULL).1 = true := by
      rcases GetMainMCParticle.loop_spec pre F32.zero NULL with ⟨heq, _⟩ | ⟨hmem, hbeat, _⟩
      · rw [heq]; exact hw
      · obtain ⟨hngt, hneq⟩ := hpre _ hmem
        have hle := F32.le_of_not_gt (F32.ne_nan_of_gt hbeat).1 (F32.ne_nan_of_gt hw).1 hngt
        simp only [F32.le, Bool.or_eq_true] at hle
        rcases hle with h | h
        · exact h
        · simp only at hneq
          rw [hneq] at h
          exact Bool.noConfusion h
    have hloop : GetMainMCParticle.loop t.m_mcParticleWeightMap F32.zero NULL = (w, k) := by
      rw [hmap, GetMainMCParticle.loop_append]
      simp only [GetMainMCParticle.loop, hbefore, if_true]
      rcases GetMainMCParticle.loop_spec post w k with ⟨heq, _⟩ | ⟨hmem, hbeat, _⟩
      · exact heq
      · have := (hpost _ hmem)
        simp only at this
        rw [this] at hbeat
        exact Bool.noConfusion hbeat
    simp only [Track.GetMainMCParticle, hloop]
    rw [if_neg (fun h => hk h.symm)]
  refine ⟨general, ?_⟩
  intro t A B C hB hmap
  have h03 : F32.gt F32.f0_3 F32.f0_7 = false ∧ F32.eq F32.f0_3 F32.f0_7 = false := by decide
  have h07 : F32.gt F32.f0_7 F32.f0_7 = false := by decide
  refine general t [(A, F32.f0_3)] [(C, F32.f0_7)] B F32.f0_7 hmap hB (by decide) ?_ ?_
  · intro x hx
    rw [List.mem_singleton.1 hx]
    exact h03
  · intro x hx
    rw [List.mem_singleton.1 hx]
    exact h07

/-- C2 fails as stated: on a map whose entries share the greatest weight zero the query
returns none of them, and when the first entry of greatest weight has the null key it is
not returned. -/
theorem GetMainMCParticle_ties_counterexample :
    ((∀ x ∈ (sampleTrack.SetMCParticleWeightMap [(1, F32.zero), (2, F32.zero)]).m_mcParticleWeightMap,
        F32.eq x.2 F32.zero = true) ∧
      (sampleTrack.SetMCParticleWeightMap [(1, F32.zero), (2, F32.zero)]).GetMainMCParticle =
        Except.error STATUS_CODE_NOT_INITIALIZED) ∧
    (sampleTrack.SetMCParticleWeightMap [(NULL, F32.f0_7), (1, F32.f0_7)]).GetMainMCParticle =
      Except.error STATUS_CODE_NOT_INITIALIZED := by
  decide

/-- Witness of C2 on the map 1: 0.3, 2: 0.7, 3: 0.7, which yields 2. -/
theorem GetMainMCParticle_first_of_ties_witness :
    (sampleTrack.SetMCParticleWeightMap
      [(1, F32.f0_3), (2, F32.f0_7), (3, F32.f0_7)]).GetMainMCParticle = Except.ok 2 ∧
    (sampleTrack.SetMCParticleWeightMap
      [(5, F32.f0_7), (7, F32.f0_3), (9, F32.f0_7)]).GetMainMCParticle = Except.ok 5 :=
  ⟨GetMainMCParticle_first_of_ties.2 _ 1 2 3 (by decide) rfl,
    GetMainMCParticle_first_of_ties.1 _ [] [(7, F32.f0_3), (9, F32.f0_7)] 5 F32.f0_7 rfl
      (by decide) (by decide) (by decide) (by decide)⟩

/-- C3: on a track whose truth-weight map is empty `GetMainMCParticle` throws
`STATUS_CODE_NOT_INITIALIZED`. -/
theorem GetMainMCParticle_empty (t : Track) (h : t.m_mcParticleWeightMap = []) :
    t.GetMainMCParticle = Except.error STATUS_CODE_NOT_INITIALIZED := by
  simp [Track.GetMainMCParticle, h, GetMainMCParticle.loop]

/-- Witness of C3 on the sample track. -/
theorem GetMainMCParticle_empty_witness :
    sampleTrack.m_mcParticleWeightMap = [] ∧
    sampleTrack.GetMainMCParticle = Except.error STATUS_CODE_NOT_INITIALIZED :=
  ⟨rfl, GetMainMCParticle_empty sampleTrack rfl⟩


/-! ## Construction -/

/-- C4: a parameter bundle with charge zero, and a parameter bundle whose mass and whose
momentum magnitude at closest approach both compare equal to `0.f`, is rejected by the
constructor with `STATUS_CODE_INVALID_PARAMETER`; no track is produced. -/
theorem construct_rejects (env : Collaborators) (p : Parameters)
    (h : p.m_charge = 0 ∨
      (F32.eq F32.zero p.m_mass = true ∧
        F32.eq F32.zero (env.GetMagnitude p.m_momentumAtDca) = true)) :
    Track.construct env p = Except.error STATUS_CODE_INVALID_PARAMETER := by
  rcases h with hq | ⟨hm, hp⟩
  · simp only [Track.construct, hq]
    split <;> rfl
  · have he : F32.eq F32.zero (energyAtDca p.m_mass (env.GetMagnitude p.m_momentumAtDca)) = true := by
      rw [energyAtDca_zero hm hp]
      decide
    simp only [Track.construct, he, if_true]

/-- Witness of C4: the sample bundle with charge 0, and the sample bundle with mass 0 and
momentum (0, 0, 0). -/
theorem construct_rejects_witness :
    ((sampleParameters 0 F32.one F32.one).m_charge = 0 ∧
      Track.construct sampleCollaborators (sampleParameters 0 F32.one F32.one) =
        Except.error STATUS_CODE_INVALID_PARAMETER) ∧
    ((F32.eq F32.zero (sampleParameters 1 F32.zero F32.zero).m_mass = true ∧
        F32.eq F32.zero (sampleCollaborators.GetMagnitude
          (sampleParameters 1 F32.zero F32.zero).m_momentumAtDca) = true) ∧
      Track.construct sampleCollaborators (sampleParameters 1 F32.zero F32.zero) =
        Except.error STATUS_CODE_INVALID_PARAMETER) :=
  ⟨⟨rfl, construct_rejects sampleCollaborators (sampleParameters 0 F32.one F32.one) (Or.inl rfl)⟩,
    ⟨by decide, construct_rejects sampleCollaborators (sampleParameters 1 F32.zero F32.zero)
      (Or.inr (by decide))⟩⟩

/-- C5: for a parameter bundle with charge not zero whose derived energy
`sqrt(mass * mass + p * p)`, `p` the magnitude of the momentum at closest approach, does not
compare equal to `0.f`, the constructor returns a track that holds the supplied d0, z0,
particle id, charge, mass, momentum at closest approach, three track states, time at the
calorimeter, four flags and parent address, the momentum magnitude `p` and that energy. -/
theorem construct_succeeds (env : Collaborators) (p : Parameters) (hq : p.m_charge ≠ 0)
    (he : F32.eq F32.zero (F32.sqrt (F32.add (F32.mul p.m_mass p.m_mass)
      (F32.mul (env.GetMagnitude p.m_momentumAtDca) (env.GetMagnitude p.m_momentumAtDca)))) = false) :
    ∃ t : Track, Track.construct env p = Except.ok t ∧
      t.m_d0 = p.m_d0 ∧ t.m_z0 = p.m_z0 ∧ t.m_particleId = p.m_particleId ∧
      t.m_charge = p.m_charge ∧ t.m_mass = p.m_mass ∧ t.m_momentumAtDca = p.m_momentumAtDca ∧
      t.m_trackStateAtStart = p.m_trackStateAtStart ∧
      t.m_trackStateAtEnd = p.m_trackStateAtEnd ∧
      t.m_trackStateAtCalorimeter = p.m_trackStateAtCalorimeter ∧
      t.m_timeAtCalorimeter = p.m_timeAtCalorimeter ∧
      t.m_reachesCalorimeter = p.m_reachesCalorimeter ∧
      t.m_isProjectedToEndCap = p.m_isProjectedToEndCap ∧
      t.m_canFormPfo = p.m_canFormPfo ∧
      t.m_canFormClusterlessPfo = p.m_canFormClusterlessPfo ∧
      t.m_pParentAddress = p.m_pParentAddress ∧
      t.m_momentumMagnitudeAtDca = env.GetMagnitude p.m_momentumAtDca ∧
      t.m_energyAtDca = F32.sqrt (F32.add (F32.mul p.m_mass p.m_mass)
        (F32.mul (env.GetMagnitude p.m_momentumAtDca) (env.GetMagnitude p.m_momentumAtDca))) := by
  have hq2 : ¬ (0 = p.m_charge) := fun h => hq h.symm
  simp only [Track.construct, energyAtDca, he, hq2, if_false, Bool.false_eq_true]
  exact ⟨_, rfl, rfl, rfl, rfl, rfl, rfl, rfl, rfl, rfl, rfl, rfl, rfl, rfl, rfl, rfl, rfl, rfl,
    rfl⟩

set_option maxRecDepth 8000 in
/-- Witness of C5: the sample bundle with charge 1, mass 1 and momentum (0, 0, 1) is accepted
and yields the sample track. -/
theorem construct_succeeds_witness :
    Track.construct sampleCollaborators (sampleParameters 1 F32.one F32.one) =
      Except.ok sampleTrack ∧
    ∃ t : Track, Track.construct sampleCollaborators (sampleParameters 1 F32.one F32.one) =
        Except.ok t ∧
      t.m_d0 = F32.f0_3 ∧ t.m_z0 = F32.f0_7 ∧ t.m_particleId = 211 ∧
      t.m_charge = 1 ∧ t.m_mass = F32.one ∧
      t.m_momentumAtDca = ⟨F32.zero, F32.zero, F32.one⟩ ∧
      t.m_trackStateAtStart = (sampleParameters 1 F32.one F32.one).m_trackStateAtStart ∧
      t.m_trackStateAtEnd = (sampleParameters 1 F32.one F32.one).m_trackStateAtEnd ∧
      t.m_trackStateAtCalorimeter = (sampleParameters 1 F32.one F32.one).m_trackStateAtCalorimeter ∧
      t.m_timeAtCalorimeter = F32.f0_7 ∧
      t.m_reachesCalorimeter = true ∧
      t.m_isProjectedToEndCap = false ∧
      t.m_canFormPfo = true ∧
      t.m_canFormClusterlessPfo = false ∧
      t.m_pParentAddress = 4096 ∧
      t.m_momentumMagnitudeAtDca = sampleCollaborators.GetMagnitude ⟨F32.zero, F32.zero, F32.one⟩ ∧
      t.m_energyAtDca = F32.sqrt (F32.add (F32.mul F32.one F32.one)
        (F32.mul (sampleCollaborators.GetMagnitude ⟨F32.zero, F32.zero, F32.one⟩)
          (sampleCollaborators.GetMagnitude ⟨F32.zero, F32.zero, F32.one⟩))) :=
  ⟨by decide,
    construct_succeeds sampleCollaborators (sampleParameters 1 F32.one F32.one) (by decide)
      (by decide)⟩


/-! ## Cluster association -/

/-- C6: `SetAssociatedCluster(c)` returns `STATUS_CODE_INVALID_PARAMETER` when `c` is null;
otherwise `STATUS_CODE_ALREADY_INITIALIZED` when a cluster is associated already, equal to
`c` or not, and the track is as before; otherwise `STATUS_CODE_SUCCESS`, and the associated
cluster is `c`. So after a successful `SetAssociatedCluster(X)` a call
`SetAssociatedCluster(Y)` with a cluster `Y` fails with `STATUS_CODE_ALREADY_INITIALIZED` and
the association stays `X`. -/
theorem SetAssociatedCluster_spec (t : Track) (c : Address) :
    (c = NULL → t.SetAssociatedCluster c = (STATUS_CODE_INVALID_PARAMETER, t)) ∧
    (c ≠ NULL → t.m_pAssociatedCluster ≠ NULL →
      t.SetAssociatedCluster c = (STATUS_CODE_ALREADY_INITIALIZED, t)) ∧
    (c ≠ NULL → t.m_pAssociatedCluster = NULL →
      t.SetAssociatedCluster c = (STATUS_CODE_SUCCESS, { t with m_pAssociatedCluster := c })) ∧
    (∀ Y : Address, (t.SetAssociatedCluster c).1 = STATUS_CODE_SUCCESS → Y ≠ NULL →
      (t.SetAssociatedCluster c).2.SetAssociatedCluster Y =
          (STATUS_CODE_ALREADY_INITIALIZED, (t.SetAssociatedCluster c).2) ∧
        ((t.SetAssociatedCluster c).2.SetAssociatedCluster Y).2.m_pAssociatedCluster = c) := by
  refine ⟨?_, ?_, ?_, ?_⟩
  · intro hc
    simp [Track.SetAssociatedCluster, hc]
  · intro hc ha
    have hc2 : ¬ NULL = c := fun h => hc h.symm
    have ha2 : ¬ NULL = t.m_pAssociatedCluster := fun h => ha h.symm
    simp [Track.SetAssociatedCluster, hc2, ha2]
  · intro hc ha
    have hc2 : ¬ NULL = c := fun h => hc h.symm
    simp [Track.SetAssociatedCluster, hc2, ha]
  · intro Y hs hY
    have hY2 : ¬ NULL = Y := fun h => hY h.symm
    by_cases hc : NULL = c
    · simp [Track.SetAssociatedCluster, hc] at hs
    · by_cases ha : NULL = t.m_pAssociatedCluster
      · simp [Track.SetAssociatedCluster, hc, ha.symm, hY2]
      · simp [Track.SetAssociatedCluster, hc, ha] at hs

/-- Witness of C6: on the sample track, cluster 10, then cluster 11. -/
theorem SetAssociatedCluster_spec_witness :
    sampleTrack.SetAssociatedCluster NULL = (STATUS_CODE_INVALID_PARAMETER, sampleTrack) ∧
    (sampleTrack.SetAssociatedCluster 10).1 = STATUS_CODE_SUCCESS ∧
    (sampleTrack.SetAssociatedCluster 10).2.m_pAssociatedCluster = 10 ∧
    (sampleTrack.SetAssociatedCluster 10).2.SetAssociatedCluster 11 =
      (STATUS_CODE_ALREADY_INITIALIZED, (sampleTrack.SetAssociatedCluster 10).2) ∧
    ((sampleTrack.SetAssociatedCluster 10).2.SetAssociatedCluster 11).2.m_pAssociatedCluster = 10 :=
  ⟨(SetAssociatedCluster_spec sampleTrack NULL).1 rfl,
    by decide, by decide,
    ((SetAssociatedCluster_spec sampleTrack 10).2.2.2 11 (by decide) (by decide)).1,
    ((SetAssociatedCluster_spec sampleTrack 10).2.2.2 11 (by decide) (by decide)).2⟩

/-- C7, as the code has it: when no cluster is associated and `X` is not null, or a cluster
`Z` different from `X` is associated, `RemoveAssociatedCluster(X)` returns
`STATUS_CODE_NOT_FOUND` and the track is as before. -/
theorem RemoveAssociatedCluster_not_found (t : Track) (X : Address)
    (h : (t.m_pAssociatedCluster = NULL ∧ X ≠ NULL) ∨
      (t.m_pAssociatedCluster ≠ NULL ∧ t.m_pAssociatedCluster ≠ X)) :
    t.RemoveAssociatedCluster X = (STATUS_CODE_NOT_FOUND, t) := by
  have hne : X ≠ t.m_pAssociatedCluster := by
    rcases h with ⟨h1, h2⟩ | ⟨_, h2⟩
    · rw [h1]; exact h2
    · exact fun h => h2 h.symm
  simp [Track.RemoveAssociatedCluster, hne]

/-- C7 fails as stated: on a track with no associated cluster `RemoveAssociatedCluster(NULL)`
returns `STATUS_CODE_SUCCESS`. -/
theorem RemoveAssociatedCluster_null_counterexample :
    sampleTrack.m_pAssociatedCluster = NULL ∧
    sampleTrack.RemoveAssociatedCluster NULL = (STATUS_CODE_SUCCESS, sampleTrack) := by
  decide

/-- Witness of C7: removing cluster 10 from the sample track, which has none, and from the
sample track associated with cluster 11. -/
theorem RemoveAssociatedCluster_not_found_witness :
    sampleTrack.RemoveAssociatedCluster 10 = (STATUS_CODE_NOT_FOUND, sampleTrack) ∧
    (sampleTrack.SetAssociatedCluster 11).2.RemoveAssociatedCluster 10 =
      (STATUS_CODE_NOT_FOUND, (sampleTrack.SetAssociatedCluster 11).2) :=
  ⟨RemoveAssociatedCluster_not_found sampleTrack 10 (Or.inl (by decide)),
    RemoveAssociatedCluster_not_found (sampleTrack.SetAssociatedCluster 11).2 10
      (Or.inr (by decide))⟩

/-! ## Relationship lists -/

/-- C8: for a track `T` that is not null, each of `AddParent`, `AddDaughter` and `AddSibling`
returns `STATUS_CODE_SUCCESS` exactly when `T` is not in its list, which then becomes the
old list with `T` added, and `STATUS_CODE_ALREADY_PRESENT` exactly when `T` is in its list,
and then the track is as before. So when `T` is not a parent yet, `AddParent(T)` twice
succeeds, then fails with `STATUS_CODE_ALREADY_PRESENT`, and the parent list holds `T`
once. -/
theorem AddRelative_spec (t : Track) (T : Address) (hT : T ≠ NULL) :
    (((t.AddParent T).1 = STATUS_CODE_SUCCESS ↔ T ∉ t.m_parentTrackList) ∧
      ((t.AddParent T).1 = STATUS_CODE_ALREADY_PRESENT ↔ T ∈ t.m_parentTrackList) ∧
      (T ∉ t.m_parentTrackList →
        (t.AddParent T).2 = { t with m_parentTrackList := insert T t.m_parentTrackList }) ∧
      (T ∈ t.m_parentTrackList → (t.AddParent T).2 = t)) ∧
    (((t.AddDaughter T).1 = STATUS_CODE_SUCCESS ↔ T ∉ t.m_daughterTrackList) ∧
      ((t.AddDaughter T).1 = STATUS_CODE_ALREADY_PRESENT ↔ T ∈ t.m_daughterTrackList) ∧
      (T ∉ t.m_daughterTrackList →
        (t.AddDaughter T).2 = { t with m_daughterTrackList := insert T t.m_daughterTrackList }) ∧
      (T ∈ t.m_daughterTrackList → (t.AddDaughter T).2 = t)) ∧
    (((t.AddSibling T).1 = STATUS_CODE_SUCCESS ↔ T ∉ t.m_siblingTrackList) ∧
      ((t.AddSibling T).1 = STATUS_CODE_ALREADY_PRESENT ↔ T ∈ t.m_siblingTrackList) ∧
      (T ∉ t.m_siblingTrackList →
        (t.AddSibling T).2 = { t with m_siblingTrackList := insert T t.m_siblingTrackList }) ∧
      (T ∈ t.m_siblingTrackList → (t.AddSibling T).2 = t)) ∧
    (T ∉ t.m_parentTrackList →
      (t.AddParent T).1 = STATUS_CODE_SUCCESS ∧
      ((t.AddParent T).2.AddParent T).1 = STATUS_CODE_ALREADY_PRESENT ∧
      ((t.AddParent T).2.AddParent T).2.m_parentTrackList.val.count T = 1 ∧
      ((t.AddParent T).2.AddParent T).2.m_parentTrackList = insert T t.m_parentTrackList) := by
  refine ⟨?_, ?_, ?_, ?_⟩
  · by_cases hmem : T ∈ t.m_parentTrackList
    · simp [Track.AddParent_mem t T hT hmem, hmem]
    · simp [Track.AddParent_not_mem t T hT hmem, hmem]
  · by_cases hmem : T ∈ t.m_daughterTrackList
    · simp [Track.AddDaughter_mem t T hT hmem, hmem]
    · simp [Track.AddDaughter_not_mem t T hT hmem, hmem]
  · by_cases hmem : T ∈ t.m_siblingTrackList
    · simp [Track.AddSibling_mem t T hT hmem, hmem]
    · simp [Track.AddSibling_not_mem t T hT hmem, hmem]
  · intro hmem
    have h1 := Track.AddParent_not_mem t T hT hmem
    have hmem2 : T ∈ (t.AddParent T).2.m_parentTrackList := by
      rw [h1]; exact Finset.mem_insert_self T _
    have h2 := Track.AddParent_mem (t.AddParent T).2 T hT hmem2
    rw [h2]
    refine ⟨by rw [h1], rfl, ?_, by rw [h1]⟩
    exact Multiset.count_eq_one_of_mem (t.AddParent T).2.m_parentTrackList.nodup hmem2

/-- Witness of C8: track 5 added twice as a parent of the sample track. -/
theorem AddRelative_spec_witness :
    (sampleTrack.AddParent 5).1 = STATUS_CODE_SUCCESS ∧
    ((sampleTrack.AddParent 5).2.AddParent 5).1 = STATUS_CODE_ALREADY_PRESENT ∧
    ((sampleTrack.AddParent 5).2.AddParent 5).2.m_parentTrackList.val.count 5 = 1 ∧
    ((sampleTrack.AddParent 5).2.AddParent 5).2.m_parentTrackList = insert 5 ∅ :=
  (AddRelative_spec sampleTrack 5 (by decide)).2.2.2 (by decide)

/-- C9: `AddParent(NULL)`, `AddDaughter(NULL)` and `AddSibling(NULL)` each return
`STATUS_CODE_INVALID_PARAMETER` and leave the track, so its three lists, as it was. -/
theorem AddRelative_null (t : Track) :
    t.AddParent NULL = (STATUS_CODE_INVALID_PARAMETER, t) ∧
    t.AddDaughter NULL = (STATUS_CODE_INVALID_PARAMETER, t) ∧
    t.AddSibling NULL = (STATUS_CODE_INVALID_PARAMETER, t) :=
  ⟨Track.AddParent_null t, Track.AddDaughter_null t, Track.AddSibling_null t⟩

/-! ## Failure leaves the track unchanged -/

/-- C10: when a call of `SetAssociatedCluster`, `RemoveAssociatedCluster`, `AddParent`,
`AddDaughter`, `AddSibling` or `GetMainMCParticle` does not end with `STATUS_CODE_SUCCESS`,
the track after the call equals the track before it in every member. -/
theorem failure_leaves_track (call : Call) (t : Track)
    (h : (call.run t).1 ≠ STATUS_CODE_SUCCESS) : (call.run t).2 = t := by
  cases call with
  | SetAssociatedCluster p =>
    simp only [Call.run, Track.SetAssociatedCluster] at h ⊢
    split at h
    · simp [*]
    · split at h
      · simp [*]
      · exact absurd rfl h
  | RemoveAssociatedCluster p =>
    simp only [Call.run, Track.RemoveAssociatedCluster] at h ⊢
    split at h
    · simp [*]
    · exact absurd rfl h
  | AddParent p =>
    simp only [Call.run] at h ⊢
    by_cases hp : p = NULL
    · rw [hp, Track.AddParent_null]
    · by_cases hmem : p ∈ t.m_parentTrackList
      · rw [Track.AddParent_mem t p hp hmem]
      · rw [Track.AddParent_not_mem t p hp hmem] at h
        exact absurd rfl h
  | AddDaughter p =>
    simp only [Call.run] at h ⊢
    by_cases hp : p = NULL
    · rw [hp, Track.AddDaughter_null]
    · by_cases hmem : p ∈ t.m_daughterTrackList
      · rw [Track.AddDaughter_mem t p hp hmem]
      · rw [Track.AddDaughter_not_mem t p hp hmem] at h
        exact absurd rfl h
  | AddSibling p =>
    simp only [Call.run] at h ⊢
    by_cases hp : p = NULL
    · rw [hp, Track.AddSibling_null]
    · by_cases hmem : p ∈ t.m_siblingTrackList
      · rw [Track.AddSibling_mem t p hp hmem]
      · rw [Track.AddSibling_not_mem t p hp hmem] at h
        exact absurd rfl h
  | GetMainMCParticle =>
    simp only [Call.run]
    split <;> rfl

/-- Witness of C10: a second `AddParent(5)`, a second `SetAssociatedCluster`, and
`GetMainMCParticle` on the empty map. -/
theorem failure_leaves_track_witness :
    ((Call.AddParent 5).run (sampleTrack.AddParent 5).2).2 = (sampleTrack.AddParent 5).2 ∧
    ((Call.SetAssociatedCluster 11).run (sampleTrack.SetAssociatedCluster 10).2).2 =
      (sampleTrack.SetAssociatedCluster 10).2 ∧
    (Call.GetMainMCParticle.run sampleTrack).2 = sampleTrack :=
  ⟨failure_leaves_track (Call.AddParent 5) (sampleTrack.AddParent 5).2 (by decide),
    failure_leaves_track (Call.SetAssociatedCluster 11) (sampleTrack.SetAssociatedCluster 10).2
      (by decide),
    failure_leaves_track Call.GetMainMCParticle sampleTrack (by decide)⟩

/-! ## The outcome of the constructor -/

/-- An accepted bundle has non-zero energy and charge, and the track is the one the member
initialisers describe. -/
theorem Track.construct_ok {env : Collaborators} {p : Parameters} {t : Track}
    (h : Track.construct env p = Except.ok t) :
    F32.eq F32.zero (energyAtDca p.m_mass (env.GetMagnitude p.m_momentumAtDca)) = false ∧
    p.m_charge ≠ 0 ∧
    t = {
      m_d0 := p.m_d0
      m_z0 := p.m_z0
      m_particleId := p.m_particleId
      m_charge := p.m_charge
      m_mass := p.m_mass
      m_momentumAtDca := p.m_momentumAtDca
      m_momentumMagnitudeAtDca := env.GetMagnitude p.m_momentumAtDca
      m_energyAtDca := energyAtDca p.m_mass (env.GetMagnitude p.m_momentumAtDca)
      m_trackStateAtStart := p.m_trackStateAtStart
      m_trackStateAtEnd := p.m_trackStateAtEnd
      m_trackStateAtCalorimeter := p.m_trackStateAtCalorimeter
      m_timeAtCalorimeter := p.m_timeAtCalorimeter
      m_reachesCalorimeter := p.m_reachesCalorimeter
      m_isProjectedToEndCap := p.m_isProjectedToEndCap
      m_canFormPfo := p.m_canFormPfo
      m_canFormClusterlessPfo := p.m_canFormClusterlessPfo
      m_pHelixFitAtCalorimeter :=
        ⟨p.m_trackStateAtCalorimeter.m_position, p.m_trackStateAtCalorimeter.m_momentum,
          F32.ofInt p.m_charge, env.bField⟩
      m_mcParticleWeightMap := []
      m_pAssociatedCluster := NULL
      m_parentTrackList := ∅
      m_siblingTrackList := ∅
      m_daughterTrackList := ∅
      m_pParentAddress := p.m_pParentAddress
      m_isAvailable := true } := by
  simp only [Track.construct] at h
  split at h
  · exact Except.noConfusion h
  · split at h
    · exact Except.noConfusion h
    · rename_i he hq
      refine ⟨by simpa using he, fun hz => hq hz.symm, ?_⟩
      exact (Except.ok.inj h).symm

/-- A rejected bundle is rejected with `STATUS_CODE_INVALID_PARAMETER`, and it is rejected
exactly when the energy compares equal to `0.f` or the charge is zero. -/
theorem Track.construct_error_iff (env : Collaborators) (p : Parameters) :
    (Track.construct env p = Except.error STATUS_CODE_INVALID_PARAMETER ↔
      (F32.eq F32.zero (energyAtDca p.m_mass (env.GetMagnitude p.m_momentumAtDca)) = true ∨
        p.m_charge = 0)) ∧
    ((∃ t, Track.construct env p = Except.ok t) ↔
      (F32.eq F32.zero (energyAtDca p.m_mass (env.GetMagnitude p.m_momentumAtDca)) = false ∧
        p.m_charge ≠ 0)) := by
  by_cases he : F32.eq F32.zero (energyAtDca p.m_mass (env.GetMagnitude p.m_momentumAtDca)) = true
  · simp only [Track.construct, he, if_true]
    simp
  · have he2 : F32.eq F32.zero (energyAtDca p.m_mass (env.GetMagnitude p.m_momentumAtDca)) =
        false := by simpa using he
    by_cases hq : 0 = p.m_charge
    · simp only [Track.construct, he2, hq, if_true, Bool.false_eq_true, if_false]
      simp [hq.symm]
    · have hq2 : ¬ p.m_charge = 0 := fun h => hq h.symm
      simp only [Track.construct, he2, hq, hq2, Bool.false_eq_true, if_false]
      simp [hq2]

/-! ## What a mutator can change -/

/-- A mutator call changes at most the truth-weight map, the associated cluster and the
three relationship lists. -/
theorem Mutator.run_frame (call : Mutator) (t : Track) :
    call.run t = { t with
      m_mcParticleWeightMap := (call.run t).m_mcParticleWeightMap
      m_pAssociatedCluster := (call.run t).m_pAssociatedCluster
      m_parentTrackList := (call.run t).m_parentTrackList
      m_siblingTrackList := (call.run t).m_siblingTrackList
      m_daughterTrackList := (call.run t).m_daughterTrackList } := by
  cases call with
  | SetMCParticleWeightMap m => rfl
  | RemoveMCParticles => rfl
  | SetAssociatedCluster p =>
    simp only [Mutator.run, Track.SetAssociatedCluster]
    split
    · rfl
    · split <;> rfl
  | RemoveAssociatedCluster p =>
    simp only [Mutator.run, Track.RemoveAssociatedCluster]
    split <;> rfl
  | AddParent p =>
    simp only [Mutator.run, Track.AddParent]
    split
    · rfl
    · split <;> rfl
  | AddDaughter p =>
    simp only [Mutator.run, Track.AddDaughter]
    split
    · rfl
    · split <;> rfl
  | AddSibling p =>
    simp only [Mutator.run, Track.AddSibling]
    split
    · rfl
    · split <;> rfl

/-- A sequence of mutator calls changes at most the truth-weight map, the associated
cluster and the three relationship lists. -/
theorem Track.after_frame (calls : List Mutator) :
    ∀ t : Track, Track.after calls t = { t with
      m_mcParticleWeightMap := (Track.after calls t).m_mcParticleWeightMap
      m_pAssociatedCluster := (Track.after calls t).m_pAssociatedCluster
      m_parentTrackList := (Track.after calls t).m_parentTrackList
      m_siblingTrackList := (Track.after calls t).m_siblingTrackList
      m_daughterTrackList := (Track.after calls t).m_daughterTrackList } := by
  induction calls with
  | nil => intro t; rfl
  | cons call calls ih =>
    intro t
    have h1 := ih (call.run t)
    have h2 := Mutator.run_frame call t
    simp only [Track.after]
    rw [h1, h2]

/-- No mutator call puts the null pointer into a relationship list. -/
theorem Mutator.run_no_null (call : Mutator) (t : Track)
    (h : NULL ∉ t.m_parentTrackList ∧ NULL ∉ t.m_daughterTrackList ∧
      NULL ∉ t.m_siblingTrackList) :
    NULL ∉ (call.run t).m_parentTrackList ∧ NULL ∉ (call.run t).m_daughterTrackList ∧
      NULL ∉ (call.run t).m_siblingTrackList := by
  obtain ⟨h1, h2, h3⟩ := h
  cases call with
  | SetMCParticleWeightMap m => exact ⟨h1, h2, h3⟩
  | RemoveMCParticles => exact ⟨h1, h2, h3⟩
  | SetAssociatedCluster p =>
    simp only [Mutator.run, Track.SetAssociatedCluster]
    split
    · exact ⟨h1, h2, h3⟩
    · split <;> exact ⟨h1, h2, h3⟩
  | RemoveAssociatedCluster p =>
    simp only [Mutator.run, Track.RemoveAssociatedCluster]
    split <;> exact ⟨h1, h2, h3⟩
  | AddParent p =>
    simp only [Mutator.run]
    by_cases hp : p = NULL
    · rw [hp, Track.AddParent_null]; exact ⟨h1, h2, h3⟩
    · by_cases hmem : p ∈ t.m_parentTrackList
      · rw [Track.AddParent_mem t p hp hmem]; exact ⟨h1, h2, h3⟩
      · rw [Track.AddParent_not_mem t p hp hmem]
        refine ⟨?_, h2, h3⟩
        simp only [Finset.mem_insert, not_or]
        exact ⟨fun h => hp h.symm, h1⟩
  | AddDaughter p =>
    simp only [Mutator.run]
    by_cases hp : p = NULL
    · rw [hp, Track.AddDaughter_null]; exact ⟨h1, h2, h3⟩
    · by_cases hmem : p ∈ t.m_daughterTrackList
      · rw [Track.AddDaughter_mem t p hp hmem]; exact ⟨h1, h2, h3⟩
      · rw [Track.AddDaughter_not_mem t p hp hmem]
        refine ⟨h1, ?_, h3⟩
        simp only [Finset.mem_insert, not_or]
        exact ⟨fun h => hp h.symm, h2⟩
  | AddSibling p =>
    simp only [Mutator.run]
    by_cases hp : p = NULL
    · rw [hp, Track.AddSibling_null]; exact ⟨h1, h2, h3⟩
    · by_cases hmem : p ∈ t.m_siblingTrackList
      · rw [Track.AddSibling_mem t p hp hmem]; exact ⟨h1, h2, h3⟩
      · rw [Track.AddSibling_not_mem t p hp hmem]
        refine ⟨h1, h2, ?_⟩
        simp only [Finset.mem_insert, not_or]
        exact ⟨fun h => hp h.symm, h3⟩

/-- No sequence of mutator calls puts the null pointer into a relationship list. -/
theorem Track.after_no_null (calls : List Mutator) :
    ∀ t : Track,
      (NULL ∉ t.m_parentTrackList ∧ NULL ∉ t.m_daughterTrackList ∧
        NULL ∉ t.m_siblingTrackList) →
      NULL ∉ (Track.after calls t).m_parentTrackList ∧
        NULL ∉ (Track.after calls t).m_daughterTrackList ∧
        NULL ∉ (Track.after calls t).m_siblingTrackList := by
  induction calls with
  | nil => intro t h; exact h
  | cons call calls ih =>
    intro t h
    exact ih (call.run t) (Mutator.run_no_null call t h)

/-! ## Zero results of the `float` operations -/

theorem bitLengthAux_zero (fuel : Nat) : bitLengthAux fuel 0 = 0 := by
  cases fuel <;> simp [bitLengthAux]

theorem bitLengthAux_spec (fuel : Nat) :
    ∀ n : Nat, n ≤ fuel → n ≠ 0 → 2 ^ bitLengthAux fuel n ≤ 2 * n ∧ 0 < bitLengthAux fuel n := by
  induction fuel with
  | zero => intro n hle hn; omega
  | succ fuel ih =>
    intro n hle hn
    simp only [bitLengthAux, if_neg hn]
    refine ⟨?_, Nat.succ_pos _⟩
    by_cases hhalf : n / 2 = 0
    · rw [hhalf, bitLengthAux_zero]
      omega
    · have h := (ih (n / 2) (by omega) hhalf).1
      rw [pow_succ]
      omega

/-- A number that is not zero has at least its leading binary digit. -/
theorem two_pow_bitLength_le {n : Nat} (hn : n ≠ 0) :
    2 ^ (bitLength n - 1) ≤ n ∧ 0 < bitLength n := by
  obtain ⟨h1, h2⟩ := bitLengthAux_spec n n (le_refl n) hn
  refine ⟨?_, h2⟩
  unfold bitLength
  have hsplit : bitLengthAux n n = (bitLengthAux n n - 1) + 1 := by omega
  rw [hsplit, pow_succ] at h1
  omega

theorem isqrtAux_pos (b : Nat) :
    ∀ n r : Nat, n ≠ 0 → isqrtAux (b + 1) n r ≠ 0 := by
  induction b with
  | zero =>
    intro n r hn
    simp only [isqrtAux, pow_zero]
    split
    · omega
    · rename_i h
      intro hr
      apply h
      rw [hr]
      omega
  | succ b ih =>
    intro n r hn
    rw [isqrtAux]
    exact ih n _ hn

theorem isqrt_pos {n : Nat} (hn : n ≠ 0) : isqrt n ≠ 0 :=
  isqrtAux_pos _ n 0 hn

namespace F32

theorem eq_zero_fin (s : Bool) (m : Nat) (e : Int) : eq zero (fin s m e) = decide (m = 0) := by
  by_cases hm : m = 0
  · subst hm
    have h : eq zero (fin s 0 e) = true := (eq_zero_iff _).2 ⟨s, e, rfl⟩
    simp [h]
  · have h : ¬ eq zero (fin s m e) = true := by
      intro h
      obtain ⟨s', e', h'⟩ := (eq_zero_iff _).1 h
      exact hm (F32.fin.inj h').2.1
    simp [hm, h]

theorem pack_cases (neg : Bool) (m : Nat) (e : Int) :
    pack neg m e = inf neg ∨ pack neg m e = fin neg m e := by
  unfold pack
  split
  · exact Or.inl rfl
  · exact Or.inr rfl

/-- A rounding result is an infinity or a finite value of the given sign whose exponent is
at least `emin`, and whose significand is not zero when a magnitude that is not zero and has
exponent at least `emin` is rounded. -/
theorem round_cases (neg : Bool) (m : Nat) (e : Int) (sticky : Bool) :
    round neg m e sticky = inf neg ∨
    ∃ (M : Nat) (e1 : Int), round neg m e sticky = fin neg M e1 ∧ emin ≤ e1 ∧
      (m ≠ 0 → emin ≤ e → M ≠ 0) := by
  unfold round
  by_cases hm : m = 0
  · right
    refine ⟨0, 0, by simp [hm], by decide, fun h => absurd hm h⟩
  · simp only [if_neg hm]
    have hbl := two_pow_bitLength_le hm
    have he1 : emin ≤ max (e + (bitLength m : Int) - (precision : Int)) emin := le_max_right _ _
    split
    · rcases pack_cases neg (m * 2 ^ (e - max (e + (bitLength m : Int) - (precision : Int)) emin).toNat)
        (max (e + (bitLength m : Int) - (precision : Int)) emin) with h | h
      · exact Or.inl h
      · right
        refine ⟨_, _, h, he1, fun _ _ => ?_⟩
        exact Nat.mul_ne_zero hm (by positivity)
    · rename_i hlt
      have hq : emin ≤ e →
          m / 2 ^ (max (e + (bitLength m : Int) - (precision : Int)) emin - e).toNat ≠ 0 := by
        intro hemin
        have hmax : max (e + (bitLength m : Int) - (precision : Int)) emin =
            e + (bitLength m : Int) - (precision : Int) := by
          apply max_eq_left
          by_contra hc
          have : max (e + (bitLength m : Int) - (precision : Int)) emin = emin :=
            max_eq_right (le_of_lt (not_le.1 hc))
          rw [this] at hlt
          exact hlt hemin
        rw [hmax]
        have hk : (e + (bitLength m : Int) - (precision : Int) - e).toNat ≤ bitLength m - 1 := by
          simp only [precision]
          omega
        have hpow : 2 ^ (e + (bitLength m : Int) - (precision : Int) - e).toNat ≤ m :=
          le_trans (Nat.pow_le_pow_right (by decide) hk) hbl.1
        have hpos : 0 < 2 ^ (e + (bitLength m : Int) - (precision : Int) - e).toNat := by
          positivity
        exact Nat.ne_of_gt (Nat.div_pos hpow hpos)
      split
      · rcases pack_cases neg
          (m / 2 ^ (max (e + (bitLength m : Int) - (precision : Int)) emin - e).toNat + 1)
          (max (e + (bitLength m : Int) - (precision : Int)) emin) with h | h
        · exact Or.inl h
        · right
          exact ⟨_, _, h, he1, fun _ _ => Nat.succ_ne_zero _⟩
      · rcases pack_cases neg
          (m / 2 ^ (max (e + (bitLength m : Int) - (precision : Int)) emin - e).toNat)
          (max (e + (bitLength m : Int) - (precision : Int)) emin) with h | h
        · exact Or.inl h
        · right
          exact ⟨_, _, h, he1, fun _ hemin => hq hemin⟩

/-- Rounding a magnitude that is not zero and has exponent at least `emin` does not give
zero. -/
theorem round_ne_zero (neg : Bool) {m : Nat} {e : Int} (sticky : Bool) (hm : m ≠ 0)
    (he : emin ≤ e) : eq zero (round neg m e sticky) = false := by
  rcases round_cases neg m e sticky with h | ⟨M, e1, h, _, hM⟩
  · rw [h]; rfl
  · rw [h, eq_zero_fin]
    simp [hM hm he]

/-- The square root of a finite value that is not zero and has exponent at least `emin`
is not zero. -/
theorem sqrt_ne_zero (s : Bool) {m : Nat} {e : Int} (hm : m ≠ 0) (he : emin ≤ e) :
    eq zero (sqrt (fin s m e)) = false := by
  simp only [sqrt, if_neg hm]
  cases s with
  | true => rfl
  | false =>
    simp only [Bool.false_eq_true, if_false]
    apply round_ne_zero
    · exact isqrt_pos (Nat.mul_ne_zero hm (by positivity))
    · simp only [emin] at he ⊢
      omega

/-- The square root of an infinity is not zero. -/
theorem sqrt_inf_ne_zero (s : Bool) : eq zero (sqrt (inf s)) = false := by
  cases s <;> rfl

/-- A product of a `float` with itself is NaN, plus infinity, or a finite value that is not
negative and has exponent at least `emin`. -/
theorem mul_self_cases (a : F32) :
    mul a a = nan ∨ mul a a = inf false ∨
    ∃ (M : Nat) (e : Int), mul a a = fin false M e ∧ emin ≤ e := by
  cases a with
  | nan => exact Or.inl rfl
  | inf s => right; left; simp [mul]
  | fin s m e =>
    have hs : (s != s) = false := by cases s <;> rfl
    simp only [mul, hs]
    rcases round_cases false (m * m) (e + e) false with h | ⟨M, e1, h, he1, _⟩
    · exact Or.inr (Or.inl h)
    · exact Or.inr (Or.inr ⟨M, e1, h, he1⟩)

/-- The square root of the sum of two squares compares equal to `0.f` exactly when both
squares do. -/
theorem sqrt_add_squares_zero_iff (a b : F32) :
    eq zero (sqrt (add (mul a a) (mul b b))) = true ↔
      (eq zero (mul a a) = true ∧ eq zero (mul b b) = true) := by
  rcases mul_self_cases a with ha | ha | ⟨M1, e1, ha, he1⟩ <;>
    rcases mul_self_cases b with hb | hb | ⟨M2, e2, hb, he2⟩ <;>
    rw [ha, hb]
  all_goals try (simp [add, sqrt, eq, zero]; done)
  -- both squares are finite
  simp only [eq_zero_fin, decide_eq_true_eq]
  by_cases hz : M1 = 0 ∧ M2 = 0
  · obtain ⟨h1, h2⟩ := hz
    subst h1
    subst h2
    simp [add, scaled, sqrt, eq_zero_fin]
  · have hx : scaled false M1 e1 (min e1 e2) + scaled false M2 e2 (min e1 e2) ≠ 0 := by
      simp only [scaled, Bool.false_eq_true, if_false]
      intro hsum
      have h1 : 0 < 2 ^ (e1 - min e1 e2).toNat := by positivity
      have h2 : 0 < 2 ^ (e2 - min e1 e2).toNat := by positivity
      have hsum2 : M1 * 2 ^ (e1 - min e1 e2).toNat + M2 * 2 ^ (e2 - min e1 e2).toNat = 0 := by
        exact_mod_cast hsum
      have hA : M1 * 2 ^ (e1 - min e1 e2).toNat = 0 := by omega
      have hB : M2 * 2 ^ (e2 - min e1 e2).toNat = 0 := by omega
      rcases Nat.mul_eq_zero.1 hA with h | h
      · rcases Nat.mul_eq_zero.1 hB with h' | h'
        · exact hz ⟨h, h'⟩
        · omega
      · omega
    have hmin : emin ≤ min e1 e2 := le_min he1 he2
    simp only [add, if_neg hx]
    constructor
    · intro h
      exfalso
      rcases round_cases (decide (scaled false M1 e1 (min e1 e2) + scaled false M2 e2 (min e1 e2) < 0))
        (scaled false M1 e1 (min e1 e2) + scaled false M2 e2 (min e1 e2)).natAbs (min e1 e2) false
        with hr | ⟨M, e3, hr, he3, hM⟩
      · rw [hr, sqrt_inf_ne_zero] at h
        exact Bool.noConfusion h
      · rw [hr, sqrt_ne_zero _ (hM (Int.natAbs_ne_zero.2 hx) hmin) he3] at h
        exact Bool.noConfusion h
    · intro h
      exact absurd h hz

end F32

/-- The derived energy compares equal to `0.f` exactly when the `float` squares of mass and
momentum magnitude both do. -/
theorem energyAtDca_zero_iff (mass p : F32) :
    F32.eq F32.zero (energyAtDca mass p) = true ↔
      (F32.eq F32.zero (F32.mul mass mass) = true ∧ F32.eq F32.zero (F32.mul p p) = true) :=
  F32.sqrt_add_squares_zero_iff mass p

/-! ## State after construction -/

/-- C11: right after a successful construction no cluster is associated, the parent,
daughter and sibling lists are empty, the truth-weight map is empty, so that
`GetMainMCParticle` throws `STATUS_CODE_NOT_INITIALIZED`, and the track is available. -/
theorem construct_initial_state (env : Collaborators) (p : Parameters) (t : Track)
    (h : Track.construct env p = Except.ok t) :
    t.m_pAssociatedCluster = NULL ∧ t.m_parentTrackList = ∅ ∧ t.m_daughterTrackList = ∅ ∧
    t.m_siblingTrackList = ∅ ∧ t.m_mcParticleWeightMap = [] ∧
    t.GetMainMCParticle = Except.error STATUS_CODE_NOT_INITIALIZED ∧
    t.m_isAvailable = true := by
  obtain ⟨_, _, ht⟩ := Track.construct_ok h
  subst ht
  refine ⟨rfl, rfl, rfl, rfl, rfl, ?_, rfl⟩
  simp [Track.GetMainMCParticle, GetMainMCParticle.loop]

set_option maxRecDepth 8000 in
/-- Witness of C11: the track built from the sample bundle. -/
theorem construct_initial_state_witness :
    sampleTrack.m_pAssociatedCluster = NULL ∧ sampleTrack.m_parentTrackList = ∅ ∧
    sampleTrack.m_daughterTrackList = ∅ ∧ sampleTrack.m_siblingTrackList = ∅ ∧
    sampleTrack.m_mcParticleWeightMap = [] ∧
    sampleTrack.GetMainMCParticle = Except.error STATUS_CODE_NOT_INITIALIZED ∧
    sampleTrack.m_isAvailable = true :=
  construct_initial_state sampleCollaborators (sampleParameters 1 F32.one F32.one) sampleTrack
    (by decide)

/-! ## Replacing and clearing the truth-weight map -/

/-- C14: after `SetMCParticleWeightMap(m)` the truth-weight map of the track is `m`,
whatever it held before, and nothing else has changed; setting `m1` and then `m2` gives the
track that setting `m2` alone gives, and setting `m` twice the track that setting it once
gives. -/
theorem SetMCParticleWeightMap_replaces (t : Track) (m m1 m2 : MCParticleWeightMap) :
    (t.SetMCParticleWeightMap m).m_mcParticleWeightMap = m ∧
    (∀ x, x ∈ (t.SetMCParticleWeightMap m).m_mcParticleWeightMap ↔ x ∈ m) ∧
    (t.SetMCParticleWeightMap m1).SetMCParticleWeightMap m2 = t.SetMCParticleWeightMap m2 ∧
    (t.SetMCParticleWeightMap m).SetMCParticleWeightMap m = t.SetMCParticleWeightMap m ∧
    (t.SetMCParticleWeightMap m).SetMCParticleWeightMap t.m_mcParticleWeightMap = t :=
  ⟨rfl, fun _ => Iff.rfl, rfl, rfl, rfl⟩

/-- C15: after `RemoveMCParticles` the truth-weight map is empty and `GetMainMCParticle`
throws `STATUS_CODE_NOT_INITIALIZED`; a track whose map was empty is unchanged; and every
member other than the map keeps its value. -/
theorem RemoveMCParticles_clears (t : Track) :
    t.RemoveMCParticles.m_mcParticleWeightMap = [] ∧
    t.RemoveMCParticles.GetMainMCParticle = Except.error STATUS_CODE_NOT_INITIALIZED ∧
    (t.m_mcParticleWeightMap = [] → t.RemoveMCParticles = t) ∧
    t.RemoveMCParticles.SetMCParticleWeightMap t.m_mcParticleWeightMap = t ∧
    (t.RemoveMCParticles.m_d0 = t.m_d0 ∧ t.RemoveMCParticles.m_z0 = t.m_z0 ∧
      t.RemoveMCParticles.m_particleId = t.m_particleId ∧
      t.RemoveMCParticles.m_charge = t.m_charge ∧ t.RemoveMCParticles.m_mass = t.m_mass ∧
      t.RemoveMCParticles.m_momentumAtDca = t.m_momentumAtDca ∧
      t.RemoveMCParticles.m_momentumMagnitudeAtDca = t.m_momentumMagnitudeAtDca ∧
      t.RemoveMCParticles.m_energyAtDca = t.m_energyAtDca ∧
      t.RemoveMCParticles.m_trackStateAtStart = t.m_trackStateAtStart ∧
      t.RemoveMCParticles.m_trackStateAtEnd = t.m_trackStateAtEnd ∧
      t.RemoveMCParticles.m_trackStateAtCalorimeter = t.m_trackStateAtCalorimeter ∧
      t.RemoveMCParticles.m_timeAtCalorimeter = t.m_timeAtCalorimeter ∧
      t.RemoveMCParticles.m_reachesCalorimeter = t.m_reachesCalorimeter ∧
      t.RemoveMCParticles.m_isProjectedToEndCap = t.m_isProjectedToEndCap ∧
      t.RemoveMCParticles.m_canFormPfo = t.m_canFormPfo ∧
      t.RemoveMCParticles.m_canFormClusterlessPfo = t.m_canFormClusterlessPfo ∧
      t.RemoveMCParticles.m_pHelixFitAtCalorimeter = t.m_pHelixFitAtCalorimeter ∧
      t.RemoveMCParticles.m_pAssociatedCluster = t.m_pAssociatedCluster ∧
      t.RemoveMCParticles.m_parentTrackList = t.m_parentTrackList ∧
      t.RemoveMCParticles.m_siblingTrackList = t.m_siblingTrackList ∧
      t.RemoveMCParticles.m_daughterTrackList = t.m_daughterTrackList ∧
      t.RemoveMCParticles.m_pParentAddress = t.m_pParentAddress ∧
      t.RemoveMCParticles.m_isAvailable = t.m_isAvailable) := by
  refine ⟨rfl, ?_, ?_, rfl, ?_⟩
  · simp [Track.GetMainMCParticle, Track.RemoveMCParticles, GetMainMCParticle.loop]
  · intro h
    cases t
    simp_all [Track.RemoveMCParticles]
  · simp [Track.RemoveMCParticles]

/-- Witness of C15: clearing the sample track, whose map is empty, and clearing it after
a map was set. -/
theorem RemoveMCParticles_clears_witness :
    sampleTrack.RemoveMCParticles = sampleTrack ∧
    (sampleTrack.SetMCParticleWeightMap [(1, F32.f0_3)]).RemoveMCParticles.GetMainMCParticle =
      Except.error STATUS_CODE_NOT_INITIALIZED :=
  ⟨(RemoveMCParticles_clears sampleTrack).2.2.1 rfl,
    (RemoveMCParticles_clears (sampleTrack.SetMCParticleWeightMap [(1, F32.f0_3)])).2.1⟩

/-! ## Implicit behaviour of the query and of the association -/

/-- C19, as the code has it: if `GetMainMCParticle` succeeds then some weight of the map is
greater than zero, and the returned key is a key of the map whose weight is greater than
zero and not smaller than any weight of the map; if some weight is greater than zero and no
key of the map is null it succeeds; if no weight is greater than zero (the empty map
included) it throws `STATUS_CODE_NOT_INITIALIZED`; and it throws no other code. -/
theorem GetMainMCParticle_succeeds_iff (t : Track) :
    ((∃ k, t.GetMainMCParticle = Except.ok k) →
      ∃ x ∈ t.m_mcParticleWeightMap, F32.gt x.2 F32.zero = true) ∧
    ((∀ x ∈ t.m_mcParticleWeightMap, x.1 ≠ NULL) →
      (∃ x ∈ t.m_mcParticleWeightMap, F32.gt x.2 F32.zero = true) →
      ∃ k, t.GetMainMCParticle = Except.ok k) ∧
    (∀ k, t.GetMainMCParticle = Except.ok k →
      ∃ w, (k, w) ∈ t.m_mcParticleWeightMap ∧ F32.gt w F32.zero = true ∧
        ∀ x ∈ t.m_mcParticleWeightMap, F32.gt x.2 w = false) ∧
    ((∀ x ∈ t.m_mcParticleWeightMap, F32.gt x.2 F32.zero = false) →
      t.GetMainMCParticle = Except.error STATUS_CODE_NOT_INITIALIZED) ∧
    (∀ code, t.GetMainMCParticle = Except.error code → code = STATUS_CODE_NOT_INITIALIZED) := by
  have hok : ∀ k, t.GetMainMCParticle = Except.ok k →
      ∃ w, (k, w) ∈ t.m_mcParticleWeightMap ∧ F32.gt w F32.zero = true ∧
        ∀ x ∈ t.m_mcParticleWeightMap, F32.gt x.2 w = false := by
    intro k hk
    simp only [Track.GetMainMCParticle] at hk
    split at hk
    · exact Except.noConfusion hk
    · rename_i hne
      have hk2 := Except.ok.inj hk
      rcases GetMainMCParticle.loop_spec t.m_mcParticleWeightMap F32.zero NULL with
        ⟨heq, _⟩ | ⟨hmem, hbeat, hall⟩
      · rw [heq] at hne
        exact absurd rfl hne
      · rw [hk2] at hmem
        exact ⟨_, hmem, hbeat, hall⟩
  refine ⟨?_, ?_, hok, ?_, ?_⟩
  · rintro ⟨k, hk⟩
    obtain ⟨w, hmem, hpos, _⟩ := hok k hk
    exact ⟨(k, w), hmem, hpos⟩
  · rintro hkeys ⟨x0, hx0, hx0pos⟩
    rcases GetMainMCParticle.loop_spec t.m_mcParticleWeightMap F32.zero NULL with
      ⟨_, hall⟩ | ⟨hmem, _, _⟩
    · rw [hall x0 hx0] at hx0pos
      exact Bool.noConfusion hx0pos
    · have hne := hkeys _ hmem
      refine ⟨(GetMainMCParticle.loop t.m_mcParticleWeightMap F32.zero NULL).2, ?_⟩
      simp only [Track.GetMainMCParticle]
      rw [if_neg (fun h => hne h.symm)]
  · intro hall
    rcases GetMainMCParticle.loop_spec t.m_mcParticleWeightMap F32.zero NULL with
      ⟨heq, _⟩ | ⟨hmem, hbeat, _⟩
    · simp [Track.GetMainMCParticle, heq]
    · have := hall _ hmem
      simp only at this
      rw [this] at hbeat
      exact Bool.noConfusion hbeat
  · intro code hcode
    simp only [Track.GetMainMCParticle] at hcode
    split at hcode
    · exact (Except.error.inj hcode).symm
    · exact Except.noConfusion hcode

/-- C19 fails as stated: the map with the single entry null: 0.7 has a weight greater than
zero, yet the query throws. -/
theorem GetMainMCParticle_null_key_counterexample :
    (∃ x ∈ (sampleTrack.SetMCParticleWeightMap [(NULL, F32.f0_7)]).m_mcParticleWeightMap,
      F32.gt x.2 F32.zero = true) ∧
    (sampleTrack.SetMCParticleWeightMap [(NULL, F32.f0_7)]).GetMainMCParticle =
      Except.error STATUS_CODE_NOT_INITIALIZED := by
  decide

/-- Witness of C19: the map 1: 0.3, 2: 0.7 succeeds with 2; the map 1: 0 fails. -/
theorem GetMainMCParticle_succeeds_iff_witness :
    (∃ k, (sampleTrack.SetMCParticleWeightMap [(1, F32.f0_3), (2, F32.f0_7)]).GetMainMCParticle =
      Except.ok k) ∧
    (sampleTrack.SetMCParticleWeightMap [(1, F32.zero)]).GetMainMCParticle =
      Except.error STATUS_CODE_NOT_INITIALIZED :=
  ⟨(GetMainMCParticle_succeeds_iff
      (sampleTrack.SetMCParticleWeightMap [(1, F32.f0_3), (2, F32.f0_7)])).2.1
      (by decide) (by decide),
    (GetMainMCParticle_succeeds_iff (sampleTrack.SetMCParticleWeightMap [(1, F32.zero)])).2.2.2.1
      (by decide)⟩

/-- C20: `RemoveAssociatedCluster(X)` returns `STATUS_CODE_SUCCESS` exactly when `X` is the
stored association, which is null when none is set. So on a track without association, for a
cluster `X`, `SetAssociatedCluster(X)` and then `RemoveAssociatedCluster(X)` both succeed and
give back the track as it was, on which `SetAssociatedCluster(Y)` succeeds for every `Y` that
is not null; and `RemoveAssociatedCluster(NULL)` on a track without association succeeds and
leaves it as it was. -/
theorem RemoveAssociatedCluster_success_iff (t : Track) (X : Address) :
    ((t.RemoveAssociatedCluster X).1 = STATUS_CODE_SUCCESS ↔ X = t.m_pAssociatedCluster) ∧
    (X ≠ NULL → t.m_pAssociatedCluster = NULL →
      (t.SetAssociatedCluster X).1 = STATUS_CODE_SUCCESS ∧
      (t.SetAssociatedCluster X).2.RemoveAssociatedCluster X = (STATUS_CODE_SUCCESS, t) ∧
      ∀ Y : Address, Y ≠ NULL →
        ((t.SetAssociatedCluster X).2.RemoveAssociatedCluster X).2.SetAssociatedCluster Y =
          (STATUS_CODE_SUCCESS, { t with m_pAssociatedCluster := Y })) ∧
    (t.m_pAssociatedCluster = NULL →
      t.RemoveAssociatedCluster NULL = (STATUS_CODE_SUCCESS, t)) := by
  refine ⟨?_, ?_, ?_⟩
  · by_cases h : X = t.m_pAssociatedCluster
    · simp [Track.RemoveAssociatedCluster, h]
    · simp [Track.RemoveAssociatedCluster, h]
  · intro hX ha
    have hX2 : ¬ NULL = X := fun h => hX h.symm
    have hback : (t.SetAssociatedCluster X).2.RemoveAssociatedCluster X =
        (STATUS_CODE_SUCCESS, t) := by
      cases t
      simp_all [Track.SetAssociatedCluster, Track.RemoveAssociatedCluster]
    refine ⟨by simp [Track.SetAssociatedCluster, hX2, ha], hback, ?_⟩
    intro Y hY
    have hY2 : ¬ NULL = Y := fun h => hY h.symm
    rw [hback]
    simp [Track.SetAssociatedCluster, hY2, ha]
  · intro ha
    cases t
    simp_all [Track.RemoveAssociatedCluster]

/-- Witness of C20: cluster 10 set on and removed from the sample track, then cluster 11
set. -/
theorem RemoveAssociatedCluster_success_iff_witness :
    (sampleTrack.SetAssociatedCluster 10).1 = STATUS_CODE_SUCCESS ∧
    (sampleTrack.SetAssociatedCluster 10).2.RemoveAssociatedCluster 10 =
      (STATUS_CODE_SUCCESS, sampleTrack) ∧
    (((sampleTrack.SetAssociatedCluster 10).2.RemoveAssociatedCluster 10).2.SetAssociatedCluster
      11).1 = STATUS_CODE_SUCCESS ∧
    sampleTrack.RemoveAssociatedCluster NULL = (STATUS_CODE_SUCCESS, sampleTrack) :=
  ⟨((RemoveAssociatedCluster_success_iff sampleTrack 10).2.1 (by decide) (by decide)).1,
    ((RemoveAssociatedCluster_success_iff sampleTrack 10).2.1 (by decide) (by decide)).2.1,
    by rw [((RemoveAssociatedCluster_success_iff sampleTrack 10).2.1 (by decide)
      (by decide)).2.2 11 (by decide)],
    (RemoveAssociatedCluster_success_iff sampleTrack NULL).2.2 (by decide)⟩

/-! ## Invariants of the reachable tracks -/

/-- C12: in the track reached from a successful construction by any finite sequence of
`SetMCParticleWeightMap`, `RemoveMCParticles`, `SetAssociatedCluster`,
`RemoveAssociatedCluster`, `AddParent`, `AddDaughter` and `AddSibling` calls, successful or
not, the null pointer is in none of the parent, daughter and sibling lists, and no element
occurs more than once in any of them. -/
theorem relationship_lists_invariant (env : Collaborators) (p : Parameters) (t0 : Track)
    (h : Track.construct env p = Except.ok t0) (calls : List Mutator) :
    (NULL ∉ (Track.after calls t0).m_parentTrackList ∧
      NULL ∉ (Track.after calls t0).m_daughterTrackList ∧
      NULL ∉ (Track.after calls t0).m_siblingTrackList) ∧
    (∀ x, (Track.after calls t0).m_parentTrackList.val.count x ≤ 1) ∧
    (∀ x, (Track.after calls t0).m_daughterTrackList.val.count x ≤ 1) ∧
    (∀ x, (Track.after calls t0).m_siblingTrackList.val.count x ≤ 1) := by
  obtain ⟨_, _, ht⟩ := Track.construct_ok h
  have hinit : NULL ∉ t0.m_parentTrackList ∧ NULL ∉ t0.m_daughterTrackList ∧
      NULL ∉ t0.m_siblingTrackList := by
    subst ht
    simp
  exact ⟨Track.after_no_null calls t0 hinit,
    fun x => Multiset.nodup_iff_count_le_one.1 (Track.after calls t0).m_parentTrackList.nodup x,
    fun x => Multiset.nodup_iff_count_le_one.1 (Track.after calls t0).m_daughterTrackList.nodup x,
    fun x => Multiset.nodup_iff_count_le_one.1 (Track.after calls t0).m_siblingTrackList.nodup x⟩

set_option maxRecDepth 8000 in
/-- Witness of C12: on the sample track, `AddParent(5)`, `AddParent(NULL)`, `AddParent(5)`,
`AddDaughter(NULL)`, `AddSibling(7)`. -/
theorem relationship_lists_invariant_witness :
    (Track.after [Mutator.AddParent 5, Mutator.AddParent NULL, Mutator.AddParent 5,
        Mutator.AddDaughter NULL, Mutator.AddSibling 7] sampleTrack).m_parentTrackList = {5} ∧
    NULL ∉ (Track.after [Mutator.AddParent 5, Mutator.AddParent NULL, Mutator.AddParent 5,
        Mutator.AddDaughter NULL, Mutator.AddSibling 7] sampleTrack).m_parentTrackList ∧
    (Track.after [Mutator.AddParent 5, Mutator.AddParent NULL, Mutator.AddParent 5,
        Mutator.AddDaughter NULL, Mutator.AddSibling 7]
      sampleTrack).m_parentTrackList.val.count 5 ≤ 1 :=
  ⟨by decide,
    (relationship_lists_invariant sampleCollaborators (sampleParameters 1 F32.one F32.one)
      sampleTrack (by decide) [Mutator.AddParent 5, Mutator.AddParent NULL, Mutator.AddParent 5,
        Mutator.AddDaughter NULL, Mutator.AddSibling 7]).1.1,
    (relationship_lists_invariant sampleCollaborators (sampleParameters 1 F32.one F32.one)
      sampleTrack (by decide) [Mutator.AddParent 5, Mutator.AddParent NULL, Mutator.AddParent 5,
        Mutator.AddDaughter NULL, Mutator.AddSibling 7]).2.1 5⟩

/-- C13: in the track reached from a successful construction by any finite sequence of
mutator calls the charge is not zero, the energy at closest approach does not compare equal
to `0.f`, and d0, z0, particle id, charge, mass, momentum, momentum magnitude, energy, the
three track states, the time at the calorimeter, the four flags, the parent address and
the helix have the values they had right after construction. -/
theorem construction_attributes_immutable (env : Collaborators) (p : Parameters) (t0 : Track)
    (h : Track.construct env p = Except.ok t0) (calls : List Mutator) :
    (Track.after calls t0).m_charge ≠ 0 ∧
    F32.eq F32.zero (Track.after calls t0).m_energyAtDca = false ∧
    (Track.after calls t0).m_d0 = t0.m_d0 ∧
    (Track.after calls t0).m_z0 = t0.m_z0 ∧
    (Track.after calls t0).m_particleId = t0.m_particleId ∧
    (Track.after calls t0).m_charge = t0.m_charge ∧
    (Track.after calls t0).m_mass = t0.m_mass ∧
    (Track.after calls t0).m_momentumAtDca = t0.m_momentumAtDca ∧
    (Track.after calls t0).m_momentumMagnitudeAtDca = t0.m_momentumMagnitudeAtDca ∧
    (Track.after calls t0).m_energyAtDca = t0.m_energyAtDca ∧
    (Track.after calls t0).m_trackStateAtStart = t0.m_trackStateAtStart ∧
    (Track.after calls t0).m_trackStateAtEnd = t0.m_trackStateAtEnd ∧
    (Track.after calls t0).m_trackStateAtCalorimeter = t0.m_trackStateAtCalorimeter ∧
    (Track.after calls t0).m_timeAtCalorimeter = t0.m_timeAtCalorimeter ∧
    (Track.after calls t0).m_reachesCalorimeter = t0.m_reachesCalorimeter ∧
    (Track.after calls t0).m_isProjectedToEndCap = t0.m_isProjectedToEndCap ∧
    (Track.after calls t0).m_canFormPfo = t0.m_canFormPfo ∧
    (Track.after calls t0).m_canFormClusterlessPfo = t0.m_canFormClusterlessPfo ∧
    (Track.after calls t0).m_pParentAddress = t0.m_pParentAddress ∧
    (Track.after calls t0).m_pHelixFitAtCalorimeter = t0.m_pHelixFitAtCalorimeter := by
  obtain ⟨he, hq, ht⟩ := Track.construct_ok h
  have hframe := Track.after_frame calls t0
  have hq0 : t0.m_charge ≠ 0 := by rw [ht]; exact hq
  have he0 : F32.eq F32.zero t0.m_energyAtDca = false := by rw [ht]; exact he
  generalize Track.after calls t0 = t at hframe ⊢
  rw [hframe]
  exact ⟨hq0, he0, rfl, rfl, rfl, rfl, rfl, rfl, rfl, rfl, rfl, rfl, rfl, rfl, rfl, rfl, rfl,
    rfl, rfl, rfl⟩

set_option maxRecDepth 8000 in
/-- Witness of C13: on the sample track, a weight map, a cluster, a parent and a failing
removal. -/
theorem construction_attributes_immutable_witness :
    (Track.after [Mutator.SetMCParticleWeightMap [(1, F32.f0_3)], Mutator.SetAssociatedCluster 10,
        Mutator.AddParent 5, Mutator.RemoveAssociatedCluster 11] sampleTrack).m_charge ≠ 0 ∧
    (Track.after [Mutator.SetMCParticleWeightMap [(1, F32.f0_3)], Mutator.SetAssociatedCluster 10,
        Mutator.AddParent 5, Mutator.RemoveAssociatedCluster 11] sampleTrack).m_energyAtDca =
      sampleTrack.m_energyAtDca ∧
    (Track.after [Mutator.SetMCParticleWeightMap [(1, F32.f0_3)], Mutator.SetAssociatedCluster 10,
        Mutator.AddParent 5, Mutator.RemoveAssociatedCluster 11]
      sampleTrack).m_pHelixFitAtCalorimeter = sampleTrack.m_pHelixFitAtCalorimeter :=
  ⟨(construction_attributes_immutable sampleCollaborators (sampleParameters 1 F32.one F32.one)
      sampleTrack (by decide) [Mutator.SetMCParticleWeightMap [(1, F32.f0_3)],
        Mutator.SetAssociatedCluster 10, Mutator.AddParent 5,
        Mutator.RemoveAssociatedCluster 11]).1,
    (construction_attributes_immutable sampleCollaborators (sampleParameters 1 F32.one F32.one)
      sampleTrack (by decide) [Mutator.SetMCParticleWeightMap [(1, F32.f0_3)],
        Mutator.SetAssociatedCluster 10, Mutator.AddParent 5,
        Mutator.RemoveAssociatedCluster 11]).2.2.2.2.2.2.2.2.2.1,
    (construction_attributes_immutable sampleCollaborators (sampleParameters 1 F32.one F32.one)
      sampleTrack (by decide) [Mutator.SetMCParticleWeightMap [(1, F32.f0_3)],
        Mutator.SetAssociatedCluster 10, Mutator.AddParent 5,
        Mutator.RemoveAssociatedCluster 11]).2.2.2.2.2.2.2.2.2.2.2.2.2.2.2.2.2.2.2⟩

/-! ## Frame of the relationship mutators -/

/-- C17: `AddParent(T)` changes at most the parent list of the receiver, `AddDaughter(T)` at
most its daughter list, `AddSibling(T)` at most its sibling list: the other two lists, the
associated cluster, the truth-weight map, the availability flag and every other member of
the receiver keep their values. The status is a function of whether `T` is null and whether
`T` is in the respective list, whatever else `T` is. In a pool of tracks the call writes the
receiver only, so the track `T`, when it is not the receiver, is as it was. -/
theorem AddRelative_frame (t : Track) (T : Address) :
    ((t.AddParent T).2 = { t with m_parentTrackList := (t.AddParent T).2.m_parentTrackList } ∧
      (t.AddParent T).2.m_daughterTrackList = t.m_daughterTrackList ∧
      (t.AddParent T).2.m_siblingTrackList = t.m_siblingTrackList ∧
      (t.AddParent T).2.m_pAssociatedCluster = t.m_pAssociatedCluster ∧
      (t.AddParent T).2.m_mcParticleWeightMap = t.m_mcParticleWeightMap ∧
      (t.AddParent T).2.m_isAvailable = t.m_isAvailable) ∧
    ((t.AddDaughter T).2 =
        { t with m_daughterTrackList := (t.AddDaughter T).2.m_daughterTrackList } ∧
      (t.AddDaughter T).2.m_parentTrackList = t.m_parentTrackList ∧
      (t.AddDaughter T).2.m_siblingTrackList = t.m_siblingTrackList ∧
      (t.AddDaughter T).2.m_pAssociatedCluster = t.m_pAssociatedCluster ∧
      (t.AddDaughter T).2.m_mcParticleWeightMap = t.m_mcParticleWeightMap ∧
      (t.AddDaughter T).2.m_isAvailable = t.m_isAvailable) ∧
    ((t.AddSibling T).2 = { t with m_siblingTrackList := (t.AddSibling T).2.m_siblingTrackList } ∧
      (t.AddSibling T).2.m_parentTrackList = t.m_parentTrackList ∧
      (t.AddSibling T).2.m_daughterTrackList = t.m_daughterTrackList ∧
      (t.AddSibling T).2.m_pAssociatedCluster = t.m_pAssociatedCluster ∧
      (t.AddSibling T).2.m_mcParticleWeightMap = t.m_mcParticleWeightMap ∧
      (t.AddSibling T).2.m_isAvailable = t.m_isAvailable) ∧
    ((t.AddParent T).1 =
        (if T = NULL then STATUS_CODE_INVALID_PARAMETER
          else if T ∈ t.m_parentTrackList then STATUS_CODE_ALREADY_PRESENT
          else STATUS_CODE_SUCCESS) ∧
      (t.AddDaughter T).1 =
        (if T = NULL then STATUS_CODE_INVALID_PARAMETER
          else if T ∈ t.m_daughterTrackList then STATUS_CODE_ALREADY_PRESENT
          else STATUS_CODE_SUCCESS) ∧
      (t.AddSibling T).1 =
        (if T = NULL then STATUS_CODE_INVALID_PARAMETER
          else if T ∈ t.m_siblingTrackList then STATUS_CODE_ALREADY_PRESENT
          else STATUS_CODE_SUCCESS)) ∧
    (∀ (pool : TrackPool) (pSelf : Address), pool pSelf = some t →
      ∀ method ∈ [Track.AddParent T, Track.AddDaughter T, Track.AddSibling T],
        ∃ pool' : TrackPool, pool.call pSelf method = some ((method t).1, pool') ∧
          pool' pSelf = some (method t).2 ∧
          (∀ a, a ≠ pSelf → pool' a = pool a) ∧ (T ≠ pSelf → pool' T = pool T)) := by
  have hparent : (t.AddParent T).2 =
      { t with m_parentTrackList := (t.AddParent T).2.m_parentTrackList } := by
    simp only [Track.AddParent]
    split
    · rfl
    · split <;> rfl
  have hdaughter : (t.AddDaughter T).2 =
      { t with m_daughterTrackList := (t.AddDaughter T).2.m_daughterTrackList } := by
    simp only [Track.AddDaughter]
    split
    · rfl
    · split <;> rfl
  have hsibling : (t.AddSibling T).2 =
      { t with m_siblingTrackList := (t.AddSibling T).2.m_siblingTrackList } := by
    simp only [Track.AddSibling]
    split
    · rfl
    · split <;> rfl
  refine ⟨⟨hparent, ?_, ?_, ?_, ?_, ?_⟩, ⟨hdaughter, ?_, ?_, ?_, ?_, ?_⟩,
    ⟨hsibling, ?_, ?_, ?_, ?_, ?_⟩, ⟨?_, ?_, ?_⟩, ?_⟩
  any_goals (rw [hparent])
  any_goals (rw [hdaughter])
  any_goals (rw [hsibling])
  · by_cases hT : T = NULL
    · rw [hT, Track.AddParent_null]; simp
    · by_cases hmem : T ∈ t.m_parentTrackList
      · rw [Track.AddParent_mem t T hT hmem]; simp [hT, hmem]
      · rw [Track.AddParent_not_mem t T hT hmem]; simp [hT, hmem]
  · by_cases hT : T = NULL
    · rw [hT, Track.AddDaughter_null]; simp
    · by_cases hmem : T ∈ t.m_daughterTrackList
      · rw [Track.AddDaughter_mem t T hT hmem]; simp [hT, hmem]
      · rw [Track.AddDaughter_not_mem t T hT hmem]; simp [hT, hmem]
  · by_cases hT : T = NULL
    · rw [hT, Track.AddSibling_null]; simp
    · by_cases hmem : T ∈ t.m_siblingTrackList
      · rw [Track.AddSibling_mem t T hT hmem]; simp [hT, hmem]
      · rw [Track.AddSibling_not_mem t T hT hmem]; simp [hT, hmem]
  · intro pool pSelf hself method _
    refine ⟨Function.update pool pSelf (some (method t).2), ?_, ?_, ?_, ?_⟩
    · simp only [TrackPool.call, hself]
    · exact Function.update_same _ _ _
    · intro a ha
      exact Function.update_noteq ha _ _
    · intro hT
      exact Function.update_noteq hT _ _

/-- Witness of C17: in the sample pool track 2 becomes a parent of the track at address 1;
the track at address 2 is as before, its daughter list is still empty. -/
theorem AddRelative_frame_witness :
    ∃ pool' : TrackPool,
      samplePool.call 1 (Track.AddParent 2) = some (STATUS_CODE_SUCCESS, pool') ∧
      pool' 1 = some (sampleTrack.AddParent 2).2 ∧
      pool' 2 = some sampleTrack ∧
      (sampleTrack.AddParent 2).2.m_daughterTrackList = ∅ := by
  obtain ⟨pool', h1, h2, _, h4⟩ :=
    (AddRelative_frame sampleTrack 2).2.2.2.2 samplePool 1 (by decide) (Track.AddParent 2)
      (by simp)
  exact ⟨pool', h1, h2, h4 (by decide), (AddRelative_frame sampleTrack 2).1.2.1⟩

/-! ## The helix of the constructor -/

/-- C18, as the code has it: the helix of a constructed track is the helix built from the
position and the momentum of the calorimeter track state, the charge converted to `float`,
and the value of the static `bField`: the field looked up at (0, 0, 0) by this construction
when no earlier construction of the process passed the checks, and otherwise the value the
static holds from then, the field not being looked up again. Two bundles accepted in the same
process that agree in calorimeter state and charge get the same helix, whatever their start
and end states, d0, z0, mass and momentum at closest approach. A successful construction
creates exactly this one helix and leaves the static initialised, a failing one creates no
helix and leaves the static as it was. -/
theorem construct_helix (env : Collaborators) (p : Parameters) :
    (∀ t, Track.construct env p = Except.ok t →
      t.m_pHelixFitAtCalorimeter =
          ⟨p.m_trackStateAtCalorimeter.m_position, p.m_trackStateAtCalorimeter.m_momentum,
            F32.ofInt p.m_charge, env.bField⟩ ∧
        (env.bFieldStatic = none →
          t.m_pHelixFitAtCalorimeter.bField = env.GetBField ⟨F32.zero, F32.zero, F32.zero⟩) ∧
        (∀ value, env.bFieldStatic = some value → t.m_pHelixFitAtCalorimeter.bField = value) ∧
        (Track.constructAllocating env p).allocated = [t.m_pHelixFitAtCalorimeter] ∧
        (Track.constructAllocating env p).bFieldStatic =
          some t.m_pHelixFitAtCalorimeter.bField) ∧
    (∀ code, Track.construct env p = Except.error code →
      (Track.constructAllocating env p).allocated = [] ∧
        (Track.constructAllocating env p).bFieldStatic = env.bFieldStatic) ∧
    (Track.constructAllocating env p).outcome = Track.construct env p ∧
    (∀ (p' : Parameters) (t t' : Track), Track.construct env p = Except.ok t →
      Track.construct env p' = Except.ok t' →
      p'.m_trackStateAtCalorimeter = p.m_trackStateAtCalorimeter → p'.m_charge = p.m_charge →
      t'.m_pHelixFitAtCalorimeter = t.m_pHelixFitAtCalorimeter) ∧
    (∀ (later : Collaborators) (p' : Parameters) (t t' : Track),
      Track.construct env p = Except.ok t →
      later.bFieldStatic = (Track.constructAllocating env p).bFieldStatic →
      Track.construct later p' = Except.ok t' →
      t'.m_pHelixFitAtCalorimeter.bField = t.m_pHelixFitAtCalorimeter.bField ∧
        (p'.m_trackStateAtCalorimeter = p.m_trackStateAtCalorimeter →
          p'.m_charge = p.m_charge →
          t'.m_pHelixFitAtCalorimeter = t.m_pHelixFitAtCalorimeter)) := by
  have hstatic : ∀ t, Track.construct env p = Except.ok t →
      (Track.constructAllocating env p).allocated = [t.m_pHelixFitAtCalorimeter] ∧
        (Track.constructAllocating env p).bFieldStatic =
          some t.m_pHelixFitAtCalorimeter.bField := by
    intro t h
    obtain ⟨he, hq, ht⟩ := Track.construct_ok h
    have hq2 : ¬ (0 = p.m_charge) := fun hz => hq hz.symm
    subst ht
    have hrun : Track.constructAllocating env p =
        ⟨some env.bField,
          [⟨p.m_trackStateAtCalorimeter.m_position, p.m_trackStateAtCalorimeter.m_momentum,
            F32.ofInt p.m_charge, env.bField⟩], Track.construct env p⟩ := by
      simp only [Track.constructAllocating, Track.construct, he, hq2, if_false,
        Bool.false_eq_true]
    rw [hrun]
    exact ⟨rfl, rfl⟩
  refine ⟨?_, ?_, ?_, ?_, ?_⟩
  · intro t h
    obtain ⟨_, _, ht⟩ := Track.construct_ok h
    refine ⟨by rw [ht], ?_, ?_, (hstatic t h).1, (hstatic t h).2⟩
    · intro hnone
      rw [ht]
      simp only [Collaborators.bField, hnone]
    · intro value hsome
      rw [ht]
      simp only [Collaborators.bField, hsome]
  · intro code h
    simp only [Track.construct] at h
    simp only [Track.constructAllocating]
    split
    · exact ⟨rfl, rfl⟩
    · split
      · exact ⟨rfl, rfl⟩
      · rename_i he hq
        simp only [he, hq, if_false] at h
        exact Except.noConfusion h
  · simp only [Track.constructAllocating, Track.construct]
    split
    · rfl
    · split <;> rfl
  · intro p' t t' h h' hcalo hcharge
    obtain ⟨_, _, ht⟩ := Track.construct_ok h
    obtain ⟨_, _, ht'⟩ := Track.construct_ok h'
    subst ht
    subst ht'
    simp only [hcalo, hcharge]
  · intro later p' t t' h hlater h'
    have hcached : later.bField = t.m_pHelixFitAtCalorimeter.bField := by
      rw [(hstatic t h).2] at hlater
      simp only [Collaborators.bField, hlater]
    obtain ⟨_, _, ht⟩ := Track.construct_ok h
    obtain ⟨_, _, ht'⟩ := Track.construct_ok h'
    have hfield : t'.m_pHelixFitAtCalorimeter.bField = t.m_pHelixFitAtCalorimeter.bField := by
      rw [← hcached, ht']
    refine ⟨hfield, ?_⟩
    intro hcalo hcharge
    rw [ht'] at hfield ⊢
    simp only at hfield ⊢
    rw [hfield, hcalo, hcharge, ht]

set_option maxRecDepth 8000 in
/-- C18 fails as stated: after the sample track has been constructed with the field 4 at
(0, 0, 0), a construction in the same process at a time when the field looked up at
(0, 0, 0) is 2 stores a helix of field 4, not the helix built from the field looked up. -/
theorem construct_helix_static_counterexample :
    Track.construct sampleCollaborators (sampleParameters 1 F32.one F32.one) =
      Except.ok sampleTrack ∧
    sampleCollaboratorsLater.bFieldStatic =
      (Track.constructAllocating sampleCollaborators
        (sampleParameters 1 F32.one F32.one)).bFieldStatic ∧
    Track.construct sampleCollaboratorsLater (sampleParameters 1 F32.one F32.one) =
      Except.ok sampleTrack ∧
    sampleTrack.m_pHelixFitAtCalorimeter.bField = F32.fin false 8388608 (-21) ∧
    sampleCollaboratorsLater.GetBField ⟨F32.zero, F32.zero, F32.zero⟩ =
      F32.fin false 8388608 (-22) ∧
    F32.eq sampleTrack.m_pHelixFitAtCalorimeter.bField
      (sampleCollaboratorsLater.GetBField ⟨F32.zero, F32.zero, F32.zero⟩) = false ∧
    sampleTrack.m_pHelixFitAtCalorimeter ≠
      ⟨(sampleParameters 1 F32.one F32.one).m_trackStateAtCalorimeter.m_position,
        (sampleParameters 1 F32.one F32.one).m_trackStateAtCalorimeter.m_momentum,
        F32.ofInt (sampleParameters 1 F32.one F32.one).m_charge,
        sampleCollaboratorsLater.GetBField ⟨F32.zero, F32.zero, F32.zero⟩⟩ := by
  decide

set_option maxRecDepth 8000 in
/-- Witness of C18: the sample bundle yields one helix, the one of the sample track, with the
field 4 looked up by that construction; a later construction, of the sample bundle with
charge -1, keeps the field 4; the sample bundle with charge 0 yields no helix and leaves the
static uninitialised. -/
theorem construct_helix_witness :
    (Track.constructAllocating sampleCollaborators
      (sampleParameters 1 F32.one F32.one)).allocated = [sampleTrack.m_pHelixFitAtCalorimeter] ∧
    sampleTrack.m_pHelixFitAtCalorimeter.bField =
      sampleCollaborators.GetBField ⟨F32.zero, F32.zero, F32.zero⟩ ∧
    ({ sampleTrack with
        m_charge := -1
        m_pHelixFitAtCalorimeter :=
          { sampleTrack.m_pHelixFitAtCalorimeter with
            charge := F32.fin true 8388608 (-23) } } : Track).m_pHelixFitAtCalorimeter.bField =
      sampleTrack.m_pHelixFitAtCalorimeter.bField ∧
    ((Track.constructAllocating sampleCollaborators
        (sampleParameters 0 F32.one F32.one)).allocated = [] ∧
      (Track.constructAllocating sampleCollaborators
        (sampleParameters 0 F32.one F32.one)).bFieldStatic = none) :=
  ⟨((construct_helix sampleCollaborators (sampleParameters 1 F32.one F32.one)).1 sampleTrack
      (by decide)).2.2.2.1,
    ((construct_helix sampleCollaborators (sampleParameters 1 F32.one F32.one)).1 sampleTrack
      (by decide)).2.1 rfl,
    ((construct_helix sampleCollaborators (sampleParameters 1 F32.one F32.one)).2.2.2.2
      sampleCollaboratorsLater (sampleParameters (-1) F32.one F32.one) sampleTrack
      { sampleTrack with
        m_charge := -1
        m_pHelixFitAtCalorimeter :=
          { sampleTrack.m_pHelixFitAtCalorimeter with charge := F32.fin true 8388608 (-23) } }
      (by decide) (by decide) (by decide)).1,
    (construct_helix sampleCollaborators (sampleParameters 0 F32.one F32.one)).2.1
      STATUS_CODE_INVALID_PARAMETER (by decide)⟩

/-! ## When the derived energy is zero -/

/-- C16, as the code has it: the derived energy `sqrt(mass * mass + p * p)`, `p` the momentum
magnitude, compares equal to `0.f` exactly when the two `float` products `mass * mass` and
`p * p` both do; this is so when mass and `p` are zero; hence a bundle with charge not zero
is rejected by the constructor exactly when both products are zero. -/
theorem energy_zero_iff_squares_zero (env : Collaborators) (p : Parameters) :
    (F32.eq F32.zero (energyAtDca p.m_mass (env.GetMagnitude p.m_momentumAtDca)) = true ↔
      (F32.eq F32.zero (F32.mul p.m_mass p.m_mass) = true ∧
        F32.eq F32.zero (F32.mul (env.GetMagnitude p.m_momentumAtDca)
          (env.GetMagnitude p.m_momentumAtDca)) = true)) ∧
    (F32.eq F32.zero p.m_mass = true →
      F32.eq F32.zero (env.GetMagnitude p.m_momentumAtDca) = true →
      F32.eq F32.zero (energyAtDca p.m_mass (env.GetMagnitude p.m_momentumAtDca)) = true) ∧
    (p.m_charge ≠ 0 →
      (Track.construct env p = Except.error STATUS_CODE_INVALID_PARAMETER ↔
        (F32.eq F32.zero (F32.mul p.m_mass p.m_mass) = true ∧
          F32.eq F32.zero (F32.mul (env.GetMagnitude p.m_momentumAtDca)
            (env.GetMagnitude p.m_momentumAtDca)) = true)) ∧
      ((∃ t, Track.construct env p = Except.ok t) ↔
        ¬ (F32.eq F32.zero (F32.mul p.m_mass p.m_mass) = true ∧
          F32.eq F32.zero (F32.mul (env.GetMagnitude p.m_momentumAtDca)
            (env.GetMagnitude p.m_momentumAtDca)) = true))) := by
  have hiff := energyAtDca_zero_iff p.m_mass (env.GetMagnitude p.m_momentumAtDca)
  refine ⟨hiff, ?_, ?_⟩
  · intro hm hp
    rw [energyAtDca_zero hm hp]
    rfl
  · intro hq
    obtain ⟨herr, hok⟩ := Track.construct_error_iff env p
    constructor
    · rw [herr, ← hiff]
      constructor
      · rintro (h | h)
        · exact h
        · exact absurd h hq
      · exact Or.inl
    · rw [hok, ← hiff]
      constructor
      · rintro ⟨h, _⟩
        simp [h]
      · intro h
        exact ⟨by simpa using h, hq⟩

set_option maxRecDepth 8000 in
/-- C16 fails as stated: the mass 2^(-100) is not zero, yet with momentum (0, 0, 0) its
square underflows, the derived energy compares equal to `0.f`, and the bundle, of charge 1,
is rejected. -/
theorem energy_zero_counterexample :
    F32.eq F32.zero (F32.fin false 8388608 (-123)) = false ∧
    F32.eq F32.zero (energyAtDca (F32.fin false 8388608 (-123))
      (sampleCollaborators.GetMagnitude ⟨F32.zero, F32.zero, F32.zero⟩)) = true ∧
    (sampleParameters 1 (F32.fin false 8388608 (-123)) F32.zero).m_charge ≠ 0 ∧
    Track.construct sampleCollaborators
        (sampleParameters 1 (F32.fin false 8388608 (-123)) F32.zero) =
      Except.error STATUS_CODE_INVALID_PARAMETER := by
  decide

set_option maxRecDepth 8000 in
/-- Witness of C16: the sample bundle with mass 0 and momentum (0, 0, 0) is rejected, the
one with mass 1 and momentum (0, 0, 1) is accepted. -/
theorem energy_zero_iff_squares_zero_witness :
    Track.construct sampleCollaborators (sampleParameters 1 F32.zero F32.zero) =
      Except.error STATUS_CODE_INVALID_PARAMETER ∧
    ∃ t, Track.construct sampleCollaborators (sampleParameters 1 F32.one F32.one) = Except.ok t :=
  ⟨((energy_zero_iff_squares_zero sampleCollaborators
      (sampleParameters 1 F32.zero F32.zero)).2.2 (by decide)).1.2 (by decide),
    ((energy_zero_iff_squares_zero sampleCollaborators
      (sampleParameters 1 F32.one F32.one)).2.2 (by decide)).2.2 (by decide)⟩

end pandora
